import Mathlib

/-!
# SDL GBM/KMS video back-end: discovery and presentation

A shallow embedding of `src/video/gbm/SDL_gbmvideo.c`:

* `init_drm` (resource discovery: device, connector, mode, encoder);
* `init_gbm` and `GBM_VideoInit` (start-up glue);
* `drm_fb_get_from_bo` (framebuffer cache on the buffer object);
* `GBM_GLES_SwapWindow` (the page-flip cycle).

Calls into libdrm, libgbm, EGL and the kernel are the environment: their
results are inputs of the model (`DrmEnv`, `SwapEnv`) and the calls the code
makes are recorded as a trace of `Event`s.  A NULL dereference the source can
reach is an explicit `Fault`; it is never given a made-up result.  The `int`
product of `init_drm` wraps modulo 2^32, as it does in the compiled code.
-/

namespace GBM

/-! ## Data model -/

/-- The fault the C source can reach: a read through a NULL pointer. -/
inductive Fault
  | null_deref
  deriving DecidableEq

/-- The fields of libdrm's `drmModeModeInfo` the source reads (both are
`uint16_t` there). -/
structure drmModeModeInfo where
  hdisplay : Nat
  vdisplay : Nat
  deriving DecidableEq

/-- The `drmModeConnection` enumeration of libdrm. -/
inductive drmModeConnection
  | DRM_MODE_CONNECTED
  | DRM_MODE_DISCONNECTED
  | DRM_MODE_UNKNOWNCONNECTION
  deriving DecidableEq

/-- The fields of `drmModeConnector` the source reads; `modes` stands for the
array `modes[0 .. count_modes-1]`. -/
structure drmModeConnector where
  connector_id : Nat
  encoder_id : Nat
  connection : drmModeConnection
  modes : List drmModeModeInfo
  deriving DecidableEq

/-- The fields of `drmModeEncoder` the source reads. -/
structure drmModeEncoder where
  encoder_id : Nat
  crtc_id : Nat
  deriving DecidableEq

/-- The fields of `drmModeRes` the source reads: the connector and the encoder
identifier arrays, in enumeration order. -/
structure drmModeRes where
  connectors : List Nat
  encoders : List Nat
  deriving DecidableEq

/-- The record `SDL_DisplayData` of `SDL_gbmvideo.h`.  Pointers are options
(`none` is NULL); opaque handles and buffer objects are numbers. -/
structure SDL_DisplayData where
  display : Option Nat
  gbm : Option Nat
  surface : Option Nat
  fd : Int
  mode : Option drmModeModeInfo
  crtc_id : Nat
  connector_id : Nat
  bo : Option Nat
  deriving DecidableEq

/-- The record as `SDL_calloc(1, sizeof(SDL_DisplayData))` returns it in
`GBM_VideoInit`: every field zero. -/
def SDL_calloc_DisplayData : SDL_DisplayData :=
  { display := none, gbm := none, surface := none, fd := 0, mode := none,
    crtc_id := 0, connector_id := 0, bo := none }

/-- The largest value of a C `int` (32 bits). -/
def INT_MAX : Nat := 2147483647

/-- The value a 32-bit two's complement `int` holds for the mathematical
result `n`: `n` reduced modulo 2^32 into the range from -2^31 to 2^31 - 1. -/
def int_wrap (n : Int) : Int := (n + 2147483648) % 4294967296 - 2147483648

/-! ## Resource discovery: `init_drm` -/

/-- The environment of discovery: what the libdrm calls answer. -/
structure DrmEnv where
  drmOpen : String → Int
  drmModeGetResources : Option drmModeRes
  drmModeGetConnector : Nat → Option drmModeConnector
  drmModeGetEncoder : Nat → Option drmModeEncoder

/-- The table `modules[]` of `init_drm`. -/
def modules : List String :=
  ["i915", "radeon", "nouveau", "vmwgfx", "omapdrm", "exynos", "msm", "tegra"]

/-- The loop over `modules[]`: `data->fd = drmOpen(modules[i], NULL)`, leaving
at the first descriptor that is not negative.  The first argument is the value
of `data->fd` so far. -/
def open_modules (drmOpen : String → Int) : Int → List String → Int
  | fd, [] => fd
  | _, m :: ms =>
    let fd := drmOpen m
    if fd < 0 then open_modules drmOpen fd ms else fd

/-- The loop "find a connected connector": the result is the value of the
variable `connector` after the loop.  `drmModeGetConnector` answering NULL is
dereferenced by `connector->connection`. -/
def find_connector (getConnector : Nat → Option drmModeConnector) :
    List Nat → Except Fault (Option drmModeConnector)
  | [] => .ok none
  | id :: ids =>
    match getConnector id with
    | none => .error .null_deref
    | some connector =>
      if connector.connection = .DRM_MODE_CONNECTED then .ok (some connector)
      else find_connector getConnector ids

/-- The exact area of a mode, width times height. -/
def mode_area (m : drmModeModeInfo) : Nat := m.hdisplay * m.vdisplay

/-- The value of `int current_area = current_mode->hdisplay *
current_mode->vdisplay`: the two `uint16_t` fields are promoted to `int` and
the product is an `int`, which wraps when it exceeds `INT_MAX`. -/
def current_area (current_mode : drmModeModeInfo) : Int :=
  int_wrap ((current_mode.hdisplay : Int) * (current_mode.vdisplay : Int))

/-- The loop "find highest resolution mode": arguments are the modes not yet
visited, the variable `area` and `data->mode`; the result is `data->mode`
after the loop. -/
def find_mode : List drmModeModeInfo → Int → Option drmModeModeInfo →
    Option drmModeModeInfo
  | [], _, mode => mode
  | current_mode :: rest, area, mode =>
    if current_area current_mode > area then
      find_mode rest (current_area current_mode) (some current_mode)
    else find_mode rest area mode

/-- The loop "find encoder": the result is the variable `encoder` after the
loop.  `drmModeGetEncoder` answering NULL is dereferenced by
`encoder->encoder_id`. -/
def find_encoder (getEncoder : Nat → Option drmModeEncoder) (connector_encoder_id : Nat) :
    List Nat → Except Fault (Option drmModeEncoder)
  | [] => .ok none
  | id :: ids =>
    match getEncoder id with
    | none => .error .null_deref
    | some encoder =>
      if encoder.encoder_id = connector_encoder_id then .ok (some encoder)
      else find_encoder getEncoder connector_encoder_id ids

/-- The function `init_drm`: the returned `int` and the record `data` as the
function leaves it. -/
def init_drm (env : DrmEnv) (data : SDL_DisplayData) : Except Fault (Int × SDL_DisplayData) :=
  let data := { data with fd := open_modules env.drmOpen data.fd modules }
  if data.fd < 0 then .ok (-1, data)
  else
    match env.drmModeGetResources with
    | none => .ok (-1, data)
    | some resources =>
      match find_connector env.drmModeGetConnector resources.connectors with
      | .error f => .error f
      | .ok none => .ok (-1, data)
      | .ok (some connector) =>
        match find_mode connector.modes 0 data.mode with
        | none => .ok (-1, { data with mode := none })
        | some mode =>
          let data := { data with mode := some mode }
          match find_encoder env.drmModeGetEncoder connector.encoder_id resources.encoders with
          | .error f => .error f
          | .ok none => .ok (-1, data)
          | .ok (some encoder) =>
            .ok (0, { data with crtc_id := encoder.crtc_id,
                                connector_id := connector.connector_id })

/-- The environment of `init_gbm`: the handle `gbm_create_device` answers and
the handle `gbm_surface_create` answers for a width and a height. -/
structure GbmEnv where
  gbm_create_device : Option Nat
  gbm_surface_create : Nat → Nat → Option Nat

/-- The function `init_gbm`; `data->mode` is dereferenced without a test. -/
def init_gbm (env : GbmEnv) (data : SDL_DisplayData) : Except Fault (Int × SDL_DisplayData) :=
  let data := { data with gbm := env.gbm_create_device }
  match data.mode with
  | none => .error .null_deref
  | some mode =>
    let data := { data with surface := env.gbm_surface_create mode.hdisplay mode.vdisplay }
    match data.surface with
    | none => .ok (-1, data)
    | some _ => .ok (0, data)

/-- The function `GBM_VideoInit` up to `SDL_AddVideoDisplay`: the returned
`int` and the display record (the one registered with the display when the
result is 1).  `SDL_calloc` is taken to succeed. -/
def GBM_VideoInit (drm : DrmEnv) (gbm : GbmEnv) : Except Fault (Int × SDL_DisplayData) :=
  match init_drm drm SDL_calloc_DisplayData with
  | .error f => .error f
  | .ok (r, data) =>
    if r ≠ 0 then .ok (-1, data)
    else
      match init_gbm gbm data with
      | .error f => .error f
      | .ok (r, data) => if r ≠ 0 then .ok (-1, data) else .ok (1, data)

/-! ## Presentation: `drm_fb_get_from_bo` and `GBM_GLES_SwapWindow` -/

/-- The record `struct drm_fb` (the back pointer to the display record is left
out: there is one display). -/
structure drm_fb where
  bo : Nat
  fb_id : Nat
  deriving DecidableEq

/-- The calls the presentation code makes into its environment, with their
arguments and results, and the run of `page_flip_handler`. -/
inductive Event
  | SDL_EGL_SwapBuffers
  | gbm_surface_lock_front_buffer (bo : Nat)
  | drmModeAddFB (bo : Nat) (ret : Int) (fb_id : Nat)
  | drmModeSetCrtc (fb_id : Nat) (ret : Int)
  | drmModePageFlip (fb_id : Nat) (ret : Int)
  | select (ret : Int)
  | drmHandleEvent
  | page_flip_handler
  | gbm_surface_release_buffer (bo : Nat)
  deriving DecidableEq

/-- One return of `select` in the wait loop: its result, whether descriptor 0
is reported ready, and whether the following `drmHandleEvent` dispatches
`page_flip_handler`. -/
structure SelectStep where
  ret : Int
  fd0_ready : Bool
  flip_event : Bool
  deriving DecidableEq

/-- The environment of one call of `GBM_GLES_SwapWindow`: the buffer
`gbm_surface_lock_front_buffer` hands out (a buffer object, which the source
takes for granted), the results of `drmModeAddFB` (return value and the id it
writes), of `drmModeSetCrtc`, of `drmModePageFlip`, and the successive returns
of `select`. -/
structure SwapEnv where
  front : Nat
  addfb_ret : Int
  addfb_id : Nat
  setcrtc_ret : Int
  pageflip_ret : Int
  wait : List SelectStep
  deriving DecidableEq

/-- The user data attached to buffer objects (`gbm_bo_set_user_data`), newest
first. -/
abbrev UserData := List (Nat × drm_fb)

/-- The call `gbm_bo_get_user_data(bo)`. -/
def gbm_bo_get_user_data (ud : UserData) (bo : Nat) : Option drm_fb :=
  match ud with
  | [] => none
  | (b, fb) :: rest => if b = bo then some fb else gbm_bo_get_user_data rest bo

/-- What `drm_fb_get_from_bo` leaves: the returned pointer, the user data and
the device calls made. -/
structure FbResult where
  fb : Option drm_fb
  user_data : UserData
  trace : List Event
  deriving DecidableEq

/-- The function `drm_fb_get_from_bo`.  `addfb_ret` and `addfb_id` are what
`drmModeAddFB` answers if it is called; on failure the `calloc`ed record, whose
`fb_id` is still 0, is freed and NULL is returned.  `calloc` itself is taken to
succeed. -/
def drm_fb_get_from_bo (ud : UserData) (bo : Nat) (addfb_ret : Int) (addfb_id : Nat) :
    FbResult :=
  match gbm_bo_get_user_data ud bo with
  | some fb => { fb := some fb, user_data := ud, trace := [] }
  | none =>
    if addfb_ret ≠ 0 then
      { fb := none, user_data := ud, trace := [.drmModeAddFB bo addfb_ret 0] }
    else
      { fb := some { bo := bo, fb_id := addfb_id },
        user_data := (bo, { bo := bo, fb_id := addfb_id }) :: ud,
        trace := [.drmModeAddFB bo addfb_ret addfb_id] }

/-- How the wait loop of `GBM_GLES_SwapWindow` ends; `blocked` is a `select`
that never returns. -/
inductive WaitEnd
  | flipped
  | select_error
  | timeout
  | cancelled
  | blocked
  deriving DecidableEq

/-- The loop `while (waiting_for_flip)`.  The first argument tells whether
descriptor 0 is still in `fds`: `select` overwrites the set with the ready
descriptors and the source does not rebuild it. -/
def wait_for_flip : Bool → List SelectStep → WaitEnd × List Event
  | _, [] => (.blocked, [])
  | fds0, st :: rest =>
    if st.ret < 0 then (.select_error, [.select st.ret])
    else if st.ret = 0 then (.timeout, [.select st.ret])
    else if fds0 && st.fd0_ready then (.cancelled, [.select st.ret])
    else if st.flip_event then
      (.flipped, [.select st.ret, .drmHandleEvent, .page_flip_handler])
    else
      ((wait_for_flip false rest).1,
        .select st.ret :: .drmHandleEvent :: (wait_for_flip false rest).2)

/-- How a call of `GBM_GLES_SwapWindow` ends. -/
inductive Status
  | returned
  | null_deref
  | blocked
  deriving DecidableEq

/-- The state the presentation code keeps between calls: the static
`first_flip`, the display record, and the user data of the buffer objects. -/
structure SwapState where
  first_flip : Bool
  displaydata : SDL_DisplayData
  user_data : UserData
  deriving DecidableEq

/-- What one call of `GBM_GLES_SwapWindow` leaves. -/
structure SwapResult where
  state : SwapState
  trace : List Event
  status : Status
  deriving DecidableEq

/-- The function `GBM_GLES_SwapWindow`.  The source reads `fb->fb_id` without
testing `fb`: on the first call in the argument list of `drmModeSetCrtc`
(after `displaydata->bo = NULL`), otherwise in that of `drmModePageFlip`. -/
def GBM_GLES_SwapWindow (s : SwapState) (e : SwapEnv) : SwapResult :=
  let bo := e.front
  let r := drm_fb_get_from_bo s.user_data bo e.addfb_ret e.addfb_id
  let t0 := [Event.SDL_EGL_SwapBuffers, Event.gbm_surface_lock_front_buffer bo] ++ r.trace
  let displaydata : SDL_DisplayData :=
    if s.first_flip then { s.displaydata with bo := none } else s.displaydata
  match r.fb with
  | none =>
    { state := { first_flip := s.first_flip, displaydata := displaydata,
                 user_data := r.user_data },
      trace := t0, status := .null_deref }
  | some fb =>
    let t1 := if s.first_flip then t0 ++ [Event.drmModeSetCrtc fb.fb_id e.setcrtc_ret] else t0
    let t2 := t1 ++ [Event.drmModePageFlip fb.fb_id e.pageflip_ret]
    let s2 : SwapState :=
      { first_flip := false, displaydata := displaydata, user_data := r.user_data }
    if e.pageflip_ret ≠ 0 then { state := s2, trace := t2, status := .returned }
    else
      match wait_for_flip true e.wait with
      | (.flipped, tw) =>
        { state := { s2 with displaydata := { displaydata with bo := some bo } },
          trace := t2 ++ tw ++
            (match displaydata.bo with
             | some old => [Event.gbm_surface_release_buffer old]
             | none => []),
          status := .returned }
      | (.blocked, tw) => { state := s2, trace := t2 ++ tw, status := .blocked }
      | (_, tw) => { state := s2, trace := t2 ++ tw, status := .returned }

/-- The state at start-up: `first_flip` is 1, no buffer object carries user
data, and `d` is the display record `GBM_VideoInit` registered. -/
def startup (d : SDL_DisplayData) : SwapState :=
  { first_flip := true, displaydata := d, user_data := [] }

/-- A sequence of calls of `GBM_GLES_SwapWindow`, one environment per call:
the results of the calls made.  A call that does not return is the last. -/
def present_calls : SwapState → List SwapEnv → List SwapResult
  | _, [] => []
  | s, e :: es =>
    (GBM_GLES_SwapWindow s e) ::
      (match (GBM_GLES_SwapWindow s e).status with
       | .returned => present_calls (GBM_GLES_SwapWindow s e).state es
       | _ => [])

/-- The events of a sequence of calls, in order. -/
def run_trace : SwapState → List SwapEnv → List Event
  | _, [] => []
  | s, e :: es =>
    (GBM_GLES_SwapWindow s e).trace ++
      (match (GBM_GLES_SwapWindow s e).status with
       | .returned => run_trace (GBM_GLES_SwapWindow s e).state es
       | _ => [])

/-- The state after a sequence of calls that all returned. -/
def final_state : SwapState → List SwapEnv → Option SwapState
  | s, [] => some s
  | s, e :: es =>
    match (GBM_GLES_SwapWindow s e).status with
    | .returned => final_state (GBM_GLES_SwapWindow s e).state es
    | _ => none

/-! ## Observers of a trace -/

/-- The buffers released in a trace, in order. -/
def released : List Event → List Nat
  | [] => []
  | .gbm_surface_release_buffer b :: t => b :: released t
  | _ :: t => released t

/-- The number of `drmModeSetCrtc` calls in a trace. -/
def setcrtc_count : List Event → Nat
  | [] => 0
  | .drmModeSetCrtc _ _ :: t => setcrtc_count t + 1
  | _ :: t => setcrtc_count t

/-- The number of `drmModePageFlip` calls in a trace. -/
def pageflip_count : List Event → Nat
  | [] => 0
  | .drmModePageFlip _ _ :: t => pageflip_count t + 1
  | _ :: t => pageflip_count t

/-- The number of `drmModeAddFB` calls for buffer `bo` in a trace. -/
def addfb_calls (bo : Nat) : List Event → Nat
  | [] => 0
  | .drmModeAddFB b _ _ :: t => (if b = bo then 1 else 0) + addfb_calls bo t
  | _ :: t => addfb_calls bo t

/-- The number of `drmModeAddFB` calls for buffer `bo` that succeeded
(returned 0) in a trace. -/
def addfb_registered (bo : Nat) : List Event → Nat
  | [] => 0
  | .drmModeAddFB b ret _ :: t => (if b = bo ∧ ret = 0 then 1 else 0) + addfb_registered bo t
  | _ :: t => addfb_registered bo t

/-- What an observer of the trace knows: the buffers acquired and not yet
released, the buffer of the latest acquire, the buffer of the latest flip
whose completion was observed, whether a submitted flip still waits for its
completion event, whether every acquire so far handed out a buffer that was
not held, and whether no flip was requested while another was outstanding. -/
structure Ghost where
  held : List Nat
  front : Option Nat
  shown : Option Nat
  pending : Bool
  fresh : Bool
  sequential : Bool
  deriving DecidableEq

/-- The observer before any event. -/
def Ghost.init : Ghost :=
  { held := [], front := none, shown := none, pending := false, fresh := true,
    sequential := true }

/-- The observer after one more event. -/
def Ghost.step (g : Ghost) : Event → Ghost
  | .gbm_surface_lock_front_buffer b =>
    { g with held := b :: g.held, front := some b,
             fresh := g.fresh && decide (b ∉ g.held) }
  | .gbm_surface_release_buffer b => { g with held := g.held.filter (fun x => decide (x ≠ b)) }
  | .drmModePageFlip _ ret =>
    { g with sequential := g.sequential && !g.pending,
             pending := g.pending || decide (ret = 0) }
  | .page_flip_handler => { g with pending := false, shown := g.front }
  | _ => g

/-- The observer after a trace. -/
def observe (g : Ghost) : List Event → Ghost
  | [] => g
  | ev :: t => observe (g.step ev) t

/-! ## Example inputs -/

/-- A call in which every device call succeeds and the first return of
`select` brings the flip completion event; buffer `b` gets framebuffer id
`100 + b`. -/
def frame_ok (b : Nat) : SwapEnv :=
  { front := b, addfb_ret := 0, addfb_id := 100 + b, setcrtc_ret := 0, pageflip_ret := 0,
    wait := [{ ret := 1, fd0_ready := false, flip_event := true }] }

/-- A call in which `drmModeAddFB` fails. -/
def frame_nofb (b : Nat) : SwapEnv :=
  { front := b, addfb_ret := -1, addfb_id := 0, setcrtc_ret := 0, pageflip_ret := 0,
    wait := [{ ret := 1, fd0_ready := false, flip_event := true }] }

/-- A call whose flip request is accepted and whose wait ends because
descriptor 0 becomes ready before the completion event. -/
def frame_cancelled (b : Nat) : SwapEnv :=
  { front := b, addfb_ret := 0, addfb_id := 100 + b, setcrtc_ret := 0, pageflip_ret := 0,
    wait := [{ ret := 1, fd0_ready := true, flip_event := false }] }

/-- A call whose flip request is rejected. -/
def frame_rejected (b : Nat) : SwapEnv :=
  { front := b, addfb_ret := 0, addfb_id := 100 + b, setcrtc_ret := 0, pageflip_ret := -16,
    wait := [] }

/-- The state after the single call `frame_ok 1` from start-up on the zeroed
display record. -/
def state_after_frame_1 : SwapState :=
  { first_flip := false, displaydata := { SDL_calloc_DisplayData with bo := some 1 },
    user_data := [(1, { bo := 1, fb_id := 101 })] }

/-- A device with two connectors, 7 (disconnected) and 8 (connected, bound to
encoder 21, offering 800x600, 1920x1080 and 1280x720), and the encoders 20 and
21, encoder `n` driving controller `40 + n`. -/
def scenario_env : DrmEnv :=
  { drmOpen := fun _ => 3
    drmModeGetResources := some { connectors := [7, 8], encoders := [20, 21] }
    drmModeGetConnector := fun id =>
      if id = 8 then
        some { connector_id := 8, encoder_id := 21, connection := .DRM_MODE_CONNECTED,
               modes := [{ hdisplay := 800, vdisplay := 600 },
                         { hdisplay := 1920, vdisplay := 1080 },
                         { hdisplay := 1280, vdisplay := 720 }] }
      else
        some { connector_id := id, encoder_id := 0, connection := .DRM_MODE_DISCONNECTED,
               modes := [] }
    drmModeGetEncoder := fun id => some { encoder_id := id, crtc_id := 40 + id } }

/-- The connector 8 of `scenario_env`. -/
def scenario_connector : drmModeConnector :=
  { connector_id := 8, encoder_id := 21, connection := .DRM_MODE_CONNECTED,
    modes := [{ hdisplay := 800, vdisplay := 600 }, { hdisplay := 1920, vdisplay := 1080 },
              { hdisplay := 1280, vdisplay := 720 }] }

/-- The display record discovery leaves on `scenario_env`. -/
def scenario_data : SDL_DisplayData :=
  { SDL_calloc_DisplayData with
    fd := 3, mode := some { hdisplay := 1920, vdisplay := 1080 }, crtc_id := 61,
    connector_id := 8 }

/-- The device of `scenario_env` with every connector unplugged. -/
def scenario_unplugged : DrmEnv :=
  { scenario_env with
    drmModeGetConnector := fun id =>
      some { connector_id := id, encoder_id := 0, connection := .DRM_MODE_DISCONNECTED,
             modes := [] } }

/-- The device of `scenario_env` with encoders whose identifiers never match
the connector's. -/
def scenario_no_encoder : DrmEnv :=
  { scenario_env with
    drmModeGetEncoder := fun id => some { encoder_id := id + 100, crtc_id := 40 + id } }

/-- The device of `scenario_env` with connector 8 connected but offering no
mode at all. -/
def scenario_no_modes : DrmEnv :=
  { scenario_env with
    drmModeGetConnector := fun id =>
      if id = 8 then
        some { connector_id := 8, encoder_id := 21, connection := .DRM_MODE_CONNECTED,
               modes := [] }
      else
        some { connector_id := id, encoder_id := 0, connection := .DRM_MODE_DISCONNECTED,
               modes := [] } }

/-- An allocator on which `gbm_create_device` and `gbm_surface_create` would
both succeed. -/
def scenario_gbm : GbmEnv :=
  { gbm_create_device := some 1, gbm_surface_create := fun _ _ => some 2 }

/-- The device of `scenario_env` with connector 8 offering 800x600 and then
65535x65535, both within the `uint16_t` range of the fields. -/
def scenario_overflow : DrmEnv :=
  { scenario_env with
    drmModeGetConnector := fun id =>
      if id = 8 then
        some { connector_id := 8, encoder_id := 21, connection := .DRM_MODE_CONNECTED,
               modes := [{ hdisplay := 800, vdisplay := 600 },
                         { hdisplay := 65535, vdisplay := 65535 }] }
      else
        some { connector_id := id, encoder_id := 0, connection := .DRM_MODE_DISCONNECTED,
               modes := [] } }

/-! ## Auxiliary definitions for the proofs -/

/-- The display record after the `first_flip` block has (or has not) run. -/
def after_first_flip (s : SwapState) : SDL_DisplayData :=
  if s.first_flip then { s.displaydata with bo := none } else s.displaydata

/-- The events of a call up to and including the flip request, when the
framebuffer handle `fb` is resolved. -/
def flip_request_trace (s : SwapState) (e : SwapEnv) (fb : drm_fb) : List Event :=
  (if s.first_flip then
      [Event.SDL_EGL_SwapBuffers, Event.gbm_surface_lock_front_buffer e.front] ++
        (drm_fb_get_from_bo s.user_data e.front e.addfb_ret e.addfb_id).trace ++
        [Event.drmModeSetCrtc fb.fb_id e.setcrtc_ret]
    else
      [Event.SDL_EGL_SwapBuffers, Event.gbm_surface_lock_front_buffer e.front] ++
        (drm_fb_get_from_bo s.user_data e.front e.addfb_ret e.addfb_id).trace) ++
    [Event.drmModePageFlip fb.fb_id e.pageflip_ret]

/-- The display record agrees with what an observer of the trace knows: the
recorded buffer is the one of the latest confirmed flip, that buffer is still
held, and the record is empty as long as `first_flip` is set. -/
def Consistent (s : SwapState) (g : Ghost) : Prop :=
  s.displaydata.bo = g.shown ∧ (∀ b, g.shown = some b → b ∈ g.held) ∧
    (s.first_flip = true → s.displaydata.bo = none)

/-- A successful present call: it returned, and its wait observed the flip
completion event. -/
def presented (r : SwapResult) : Prop :=
  r.status = .returned ∧ Event.page_flip_handler ∈ r.trace

/-! ## Lemmas on traces and on one call -/

theorem observe_append (g : Ghost) (a b : List Event) :
    observe g (a ++ b) = observe (observe g a) b := by
  induction a generalizing g with
  | nil => rfl
  | cons ev t ih => simp [observe, ih]

theorem released_append (a b : List Event) : released (a ++ b) = released a ++ released b := by
  induction a with
  | nil => rfl
  | cons ev t ih => cases ev <;> simp [released, ih]

theorem setcrtc_count_append (a b : List Event) :
    setcrtc_count (a ++ b) = setcrtc_count a + setcrtc_count b := by
  induction a with
  | nil => simp [setcrtc_count]
  | cons ev t ih =>
    cases ev <;> simp [setcrtc_count, ih]
    omega

theorem pageflip_count_append (a b : List Event) :
    pageflip_count (a ++ b) = pageflip_count a + pageflip_count b := by
  induction a with
  | nil => simp [pageflip_count]
  | cons ev t ih =>
    cases ev <;> simp [pageflip_count, ih]
    omega

theorem addfb_calls_append (bo : Nat) (a b : List Event) :
    addfb_calls bo (a ++ b) = addfb_calls bo a + addfb_calls bo b := by
  induction a with
  | nil => simp [addfb_calls]
  | cons ev t ih =>
    cases ev <;> simp [addfb_calls, ih]
    omega

theorem addfb_registered_append (bo : Nat) (a b : List Event) :
    addfb_registered bo (a ++ b) = addfb_registered bo a + addfb_registered bo b := by
  induction a with
  | nil => simp [addfb_registered]
  | cons ev t ih =>
    cases ev <;> simp [addfb_registered, ih]
    omega

theorem wait_observe (fds0 : Bool) (w : List SelectStep) (g : Ghost) :
    observe g (wait_for_flip fds0 w).2 =
      if (wait_for_flip fds0 w).1 = .flipped then { g with pending := false, shown := g.front }
      else g := by
  induction w generalizing fds0 with
  | nil => simp [wait_for_flip, observe]
  | cons st rest ih =>
    simp only [wait_for_flip]
    split_ifs <;> simp_all [observe, Ghost.step]

theorem wait_released (fds0 : Bool) (w : List SelectStep) :
    released (wait_for_flip fds0 w).2 = [] := by
  induction w generalizing fds0 with
  | nil => simp [wait_for_flip, released]
  | cons st rest ih =>
    simp only [wait_for_flip]
    split_ifs <;> simp_all [released]

theorem wait_setcrtc_count (fds0 : Bool) (w : List SelectStep) :
    setcrtc_count (wait_for_flip fds0 w).2 = 0 := by
  induction w generalizing fds0 with
  | nil => simp [wait_for_flip, setcrtc_count]
  | cons st rest ih =>
    simp only [wait_for_flip]
    split_ifs <;> simp_all [setcrtc_count]

theorem wait_pageflip_count (fds0 : Bool) (w : List SelectStep) :
    pageflip_count (wait_for_flip fds0 w).2 = 0 := by
  induction w generalizing fds0 with
  | nil => simp [wait_for_flip, pageflip_count]
  | cons st rest ih =>
    simp only [wait_for_flip]
    split_ifs <;> simp_all [pageflip_count]

theorem wait_addfb_calls (bo : Nat) (fds0 : Bool) (w : List SelectStep) :
    addfb_calls bo (wait_for_flip fds0 w).2 = 0 := by
  induction w generalizing fds0 with
  | nil => simp [wait_for_flip, addfb_calls]
  | cons st rest ih =>
    simp only [wait_for_flip]
    split_ifs <;> simp_all [addfb_calls]

theorem wait_addfb_registered (bo : Nat) (fds0 : Bool) (w : List SelectStep) :
    addfb_registered bo (wait_for_flip fds0 w).2 = 0 := by
  induction w generalizing fds0 with
  | nil => simp [wait_for_flip, addfb_registered]
  | cons st rest ih =>
    simp only [wait_for_flip]
    split_ifs <;> simp_all [addfb_registered]

theorem swap_fault (s : SwapState) (e : SwapEnv)
    (hfb : (drm_fb_get_from_bo s.user_data e.front e.addfb_ret e.addfb_id).fb = none) :
    GBM_GLES_SwapWindow s e =
      { state := { first_flip := s.first_flip, displaydata := after_first_flip s,
                   user_data := (drm_fb_get_from_bo s.user_data e.front e.addfb_ret
                     e.addfb_id).user_data },
        trace := [Event.SDL_EGL_SwapBuffers, Event.gbm_surface_lock_front_buffer e.front] ++
          (drm_fb_get_from_bo s.user_data e.front e.addfb_ret e.addfb_id).trace,
        status := .null_deref } := by
  simp [GBM_GLES_SwapWindow, hfb, after_first_flip]

theorem swap_rejected (s : SwapState) (e : SwapEnv) (fb : drm_fb)
    (hfb : (drm_fb_get_from_bo s.user_data e.front e.addfb_ret e.addfb_id).fb = some fb)
    (hflip : e.pageflip_ret ≠ 0) :
    GBM_GLES_SwapWindow s e =
      { state := { first_flip := false, displaydata := after_first_flip s,
                   user_data := (drm_fb_get_from_bo s.user_data e.front e.addfb_ret
                     e.addfb_id).user_data },
        trace := flip_request_trace s e fb,
        status := .returned } := by
  simp [GBM_GLES_SwapWindow, hfb, after_first_flip, flip_request_trace, hflip]

theorem swap_flipped (s : SwapState) (e : SwapEnv) (fb : drm_fb)
    (hfb : (drm_fb_get_from_bo s.user_data e.front e.addfb_ret e.addfb_id).fb = some fb)
    (hflip : e.pageflip_ret = 0) (hw : (wait_for_flip true e.wait).1 = .flipped) :
    GBM_GLES_SwapWindow s e =
      { state := { first_flip := false,
                   displaydata := { after_first_flip s with bo := some e.front },
                   user_data := (drm_fb_get_from_bo s.user_data e.front e.addfb_ret
                     e.addfb_id).user_data },
        trace := flip_request_trace s e fb ++ (wait_for_flip true e.wait).2 ++
          (match (after_first_flip s).bo with
           | some old => [Event.gbm_surface_release_buffer old]
           | none => []),
        status := .returned } := by
  rcases hwd : wait_for_flip true e.wait with ⟨w1, w2⟩
  simp only [hwd] at hw
  subst hw
  simp [GBM_GLES_SwapWindow, hfb, after_first_flip, flip_request_trace, hflip, hwd]

theorem swap_blocked (s : SwapState) (e : SwapEnv) (fb : drm_fb)
    (hfb : (drm_fb_get_from_bo s.user_data e.front e.addfb_ret e.addfb_id).fb = some fb)
    (hflip : e.pageflip_ret = 0) (hw : (wait_for_flip true e.wait).1 = .blocked) :
    GBM_GLES_SwapWindow s e =
      { state := { first_flip := false, displaydata := after_first_flip s,
                   user_data := (drm_fb_get_from_bo s.user_data e.front e.addfb_ret
                     e.addfb_id).user_data },
        trace := flip_request_trace s e fb ++ (wait_for_flip true e.wait).2,
        status := .blocked } := by
  rcases hwd : wait_for_flip true e.wait with ⟨w1, w2⟩
  simp only [hwd] at hw
  subst hw
  simp [GBM_GLES_SwapWindow, hfb, after_first_flip, flip_request_trace, hflip, hwd]

theorem swap_abandoned (s : SwapState) (e : SwapEnv) (fb : drm_fb)
    (hfb : (drm_fb_get_from_bo s.user_data e.front e.addfb_ret e.addfb_id).fb = some fb)
    (hflip : e.pageflip_ret = 0) (hw1 : (wait_for_flip true e.wait).1 ≠ .flipped)
    (hw2 : (wait_for_flip true e.wait).1 ≠ .blocked) :
    GBM_GLES_SwapWindow s e =
      { state := { first_flip := false, displaydata := after_first_flip s,
                   user_data := (drm_fb_get_from_bo s.user_data e.front e.addfb_ret
                     e.addfb_id).user_data },
        trace := flip_request_trace s e fb ++ (wait_for_flip true e.wait).2,
        status := .returned } := by
  rcases hwd : wait_for_flip true e.wait with ⟨w1, w2⟩
  simp only [hwd] at hw1 hw2
  cases w1 <;> simp_all [GBM_GLES_SwapWindow, after_first_flip, flip_request_trace]

theorem fb_trace_observe (ud : UserData) (bo : Nat) (r : Int) (i : Nat) (g : Ghost) :
    observe g (drm_fb_get_from_bo ud bo r i).trace = g := by
  unfold drm_fb_get_from_bo
  split
  · rfl
  · split_ifs <;> rfl

theorem fb_trace_released (ud : UserData) (bo : Nat) (r : Int) (i : Nat) :
    released (drm_fb_get_from_bo ud bo r i).trace = [] := by
  unfold drm_fb_get_from_bo
  split
  · rfl
  · split_ifs <;> rfl

theorem fb_trace_setcrtc_count (ud : UserData) (bo : Nat) (r : Int) (i : Nat) :
    setcrtc_count (drm_fb_get_from_bo ud bo r i).trace = 0 := by
  unfold drm_fb_get_from_bo
  split
  · rfl
  · split_ifs <;> rfl

theorem fb_trace_pageflip_count (ud : UserData) (bo : Nat) (r : Int) (i : Nat) :
    pageflip_count (drm_fb_get_from_bo ud bo r i).trace = 0 := by
  unfold drm_fb_get_from_bo
  split
  · rfl
  · split_ifs <;> rfl

theorem flip_request_observe (s : SwapState) (e : SwapEnv) (fb : drm_fb) (g : Ghost) :
    observe g (flip_request_trace s e fb) =
      { g with held := e.front :: g.held, front := some e.front,
               fresh := g.fresh && decide (e.front ∉ g.held),
               sequential := g.sequential && !g.pending,
               pending := g.pending || decide (e.pageflip_ret = 0) } := by
  unfold flip_request_trace
  split_ifs <;>
    simp [observe_append, observe, Ghost.step, fb_trace_observe]

theorem flip_request_released (s : SwapState) (e : SwapEnv) (fb : drm_fb) :
    released (flip_request_trace s e fb) = [] := by
  unfold flip_request_trace
  split_ifs <;> simp [released_append, released, fb_trace_released]

theorem mem_released (b : Nat) (t : List Event) :
    Event.gbm_surface_release_buffer b ∈ t ↔ b ∈ released t := by
  induction t with
  | nil => simp [released]
  | cons ev t ih => cases ev <;> simp [released, ih]

theorem observe_fresh_mono (t : List Event) (g : Ghost) (h : (observe g t).fresh = true) :
    g.fresh = true := by
  induction t generalizing g with
  | nil => exact h
  | cons ev t ih =>
    have h1 := ih (g.step ev) h
    cases ev <;> simp_all [Ghost.step]

/-- The buffers a call releases. -/
theorem swap_released (s : SwapState) (e : SwapEnv) :
    released (GBM_GLES_SwapWindow s e).trace =
      if (drm_fb_get_from_bo s.user_data e.front e.addfb_ret e.addfb_id).fb ≠ none ∧
          e.pageflip_ret = 0 ∧ (wait_for_flip true e.wait).1 = .flipped then
        (after_first_flip s).bo.toList
      else [] := by
  cases hfb : (drm_fb_get_from_bo s.user_data e.front e.addfb_ret e.addfb_id).fb with
  | none => simp [swap_fault s e hfb, released_append, released, fb_trace_released]
  | some fb =>
    by_cases hflip : e.pageflip_ret = 0
    · by_cases hw : (wait_for_flip true e.wait).1 = .flipped
      · rw [swap_flipped s e fb hfb hflip hw]
        simp only [released_append, flip_request_released, wait_released, hflip, hw]
        cases (after_first_flip s).bo <;> simp [released]
      · by_cases hb : (wait_for_flip true e.wait).1 = .blocked
        · rw [swap_blocked s e fb hfb hflip hb]
          simp [released_append, flip_request_released, wait_released, hw]
        · rw [swap_abandoned s e fb hfb hflip hw hb]
          simp [released_append, flip_request_released, wait_released, hw]
    · rw [swap_rejected s e fb hfb hflip]
      simp [flip_request_released, hflip]

theorem after_first_flip_bo (s : SwapState) (g : Ghost) (h : Consistent s g) :
    (after_first_flip s).bo = g.shown := by
  unfold after_first_flip
  obtain ⟨h1, _, h3⟩ := h
  split_ifs with hf
  · simp [← h1, h3 hf]
  · exact h1

theorem final_state_append (s : SwapState) (pre post : List SwapEnv) :
    final_state s (pre ++ post) =
      match final_state s pre with
      | some s1 => final_state s1 post
      | none => none := by
  induction pre generalizing s with
  | nil => simp [final_state]
  | cons e es ih =>
    simp only [List.cons_append, final_state]
    cases (GBM_GLES_SwapWindow s e).status <;> simp [ih]

theorem run_trace_append (s : SwapState) (pre post : List SwapEnv) :
    run_trace s (pre ++ post) =
      run_trace s pre ++
        match final_state s pre with
        | some s1 => run_trace s1 post
        | none => [] := by
  induction pre generalizing s with
  | nil => simp [final_state, run_trace]
  | cons e es ih =>
    simp only [List.cons_append, final_state, run_trace]
    cases (GBM_GLES_SwapWindow s e).status <;> simp [ih]

/-- One returning call keeps the display record consistent with the observer,
on a surface that hands out no held buffer. -/
theorem swap_consistent (s : SwapState) (e : SwapEnv) (g : Ghost) (h : Consistent s g)
    (hfresh : (observe g (GBM_GLES_SwapWindow s e).trace).fresh = true)
    (hret : (GBM_GLES_SwapWindow s e).status = .returned) :
    Consistent (GBM_GLES_SwapWindow s e).state (observe g (GBM_GLES_SwapWindow s e).trace) := by
  have hbo := after_first_flip_bo s g h
  obtain ⟨h1, h2, h3⟩ := h
  cases hfb : (drm_fb_get_from_bo s.user_data e.front e.addfb_ret e.addfb_id).fb with
  | none => simp [swap_fault s e hfb] at hret
  | some fb =>
    by_cases hflip : e.pageflip_ret = 0
    · by_cases hw : (wait_for_flip true e.wait).1 = .flipped
      · rw [swap_flipped s e fb hfb hflip hw] at hfresh ⊢
        rw [hbo] at hfresh ⊢
        simp only [observe_append, flip_request_observe, wait_observe, hw, if_true] at hfresh ⊢
        cases hsh : g.shown with
        | none =>
          simp [hsh, observe, Consistent]
        | some old =>
          simp only [hsh, observe, Ghost.step, Consistent] at hfresh ⊢
          simp only [Bool.and_eq_true, decide_eq_true_eq] at hfresh
          have hold := h2 old hsh
          have hne : e.front ≠ old := fun hc => hfresh.2 (hc ▸ hold)
          simp [hne]
      · by_cases hb : (wait_for_flip true e.wait).1 = .blocked
        · simp [swap_blocked s e fb hfb hflip hb] at hret
        · rw [swap_abandoned s e fb hfb hflip hw hb]
          simp only [observe_append, flip_request_observe, wait_observe, hw, if_false,
            Consistent, hbo]
          exact ⟨trivial, fun b hb1 => List.mem_cons_of_mem _ (h2 b hb1), by simp⟩
    · rw [swap_rejected s e fb hfb hflip]
      simp only [flip_request_observe, Consistent, hbo]
      exact ⟨trivial, fun b hb1 => List.mem_cons_of_mem _ (h2 b hb1), by simp⟩

/-- A sequence of returning calls keeps the display record consistent with the
observer. -/
theorem run_consistent (es : List SwapEnv) (s s1 : SwapState) (g : Ghost)
    (h : Consistent s g) (hfin : final_state s es = some s1)
    (hfresh : (observe g (run_trace s es)).fresh = true) :
    Consistent s1 (observe g (run_trace s es)) := by
  induction es generalizing s g with
  | nil =>
    simp only [final_state, Option.some.injEq] at hfin
    subst hfin
    simpa [run_trace, observe] using h
  | cons e es ih =>
    simp only [final_state] at hfin
    simp only [run_trace] at hfresh ⊢
    cases hst : (GBM_GLES_SwapWindow s e).status with
    | returned =>
      simp only [hst] at hfin hfresh ⊢
      rw [observe_append] at hfresh ⊢
      exact ih _ _ (swap_consistent s e g h (observe_fresh_mono _ _ hfresh) hst) hfin hfresh
    | null_deref => simp [hst] at hfin
    | blocked => simp [hst] at hfin

theorem startup_consistent (d : SDL_DisplayData) (hd : d.bo = none) :
    Consistent (startup d) Ghost.init := by
  simp [Consistent, startup, Ghost.init, hd]

theorem flip_request_pageflip_count (s : SwapState) (e : SwapEnv) (fb : drm_fb) :
    pageflip_count (flip_request_trace s e fb) = 1 := by
  unfold flip_request_trace
  split_ifs <;> simp [pageflip_count_append, pageflip_count, fb_trace_pageflip_count]

theorem flip_request_setcrtc_count (s : SwapState) (e : SwapEnv) (fb : drm_fb) :
    setcrtc_count (flip_request_trace s e fb) = if s.first_flip then 1 else 0 := by
  unfold flip_request_trace
  split_ifs <;> simp [setcrtc_count_append, setcrtc_count, fb_trace_setcrtc_count]

/-- A call issues one flip request when the framebuffer handle resolves and
none otherwise. -/
theorem swap_pageflip_count (s : SwapState) (e : SwapEnv) :
    pageflip_count (GBM_GLES_SwapWindow s e).trace =
      if (drm_fb_get_from_bo s.user_data e.front e.addfb_ret e.addfb_id).fb = none then 0
      else 1 := by
  cases hfb : (drm_fb_get_from_bo s.user_data e.front e.addfb_ret e.addfb_id).fb with
  | none => simp [swap_fault s e hfb, pageflip_count_append, pageflip_count,
      fb_trace_pageflip_count]
  | some fb =>
    by_cases hflip : e.pageflip_ret = 0
    · by_cases hw : (wait_for_flip true e.wait).1 = .flipped
      · rw [swap_flipped s e fb hfb hflip hw]
        simp only [pageflip_count_append, flip_request_pageflip_count, wait_pageflip_count]
        cases (after_first_flip s).bo <;> simp [pageflip_count]
      · by_cases hb : (wait_for_flip true e.wait).1 = .blocked
        · rw [swap_blocked s e fb hfb hflip hb]
          simp [pageflip_count_append, flip_request_pageflip_count, wait_pageflip_count]
        · rw [swap_abandoned s e fb hfb hflip hw hb]
          simp [pageflip_count_append, flip_request_pageflip_count, wait_pageflip_count]
    · rw [swap_rejected s e fb hfb hflip]
      simp [flip_request_pageflip_count]

/-- The number of mode-sets of a call. -/
theorem swap_setcrtc_count (s : SwapState) (e : SwapEnv) :
    setcrtc_count (GBM_GLES_SwapWindow s e).trace =
      if (drm_fb_get_from_bo s.user_data e.front e.addfb_ret e.addfb_id).fb ≠ none ∧
          s.first_flip = true then 1
      else 0 := by
  cases hfb : (drm_fb_get_from_bo s.user_data e.front e.addfb_ret e.addfb_id).fb with
  | none => simp [swap_fault s e hfb, setcrtc_count_append, setcrtc_count,
      fb_trace_setcrtc_count]
  | some fb =>
    by_cases hflip : e.pageflip_ret = 0
    · by_cases hw : (wait_for_flip true e.wait).1 = .flipped
      · rw [swap_flipped s e fb hfb hflip hw]
        simp only [setcrtc_count_append, flip_request_setcrtc_count, wait_setcrtc_count]
        cases (after_first_flip s).bo <;> simp [setcrtc_count]
      · by_cases hb : (wait_for_flip true e.wait).1 = .blocked
        · rw [swap_blocked s e fb hfb hflip hb]
          simp [setcrtc_count_append, flip_request_setcrtc_count, wait_setcrtc_count]
        · rw [swap_abandoned s e fb hfb hflip hw hb]
          simp [setcrtc_count_append, flip_request_setcrtc_count, wait_setcrtc_count]
    · rw [swap_rejected s e fb hfb hflip]
      simp [flip_request_setcrtc_count]

/-- A call that gets past the framebuffer lookup clears `first_flip`. -/
theorem swap_first_flip (s : SwapState) (e : SwapEnv)
    (hfb : (drm_fb_get_from_bo s.user_data e.front e.addfb_ret e.addfb_id).fb ≠ none) :
    (GBM_GLES_SwapWindow s e).state.first_flip = false := by
  obtain ⟨fb, hfb⟩ := Option.ne_none_iff_exists'.1 hfb
  by_cases hflip : e.pageflip_ret = 0
  · by_cases hw : (wait_for_flip true e.wait).1 = .flipped
    · rw [swap_flipped s e fb hfb hflip hw]
    · by_cases hb : (wait_for_flip true e.wait).1 = .blocked
      · rw [swap_blocked s e fb hfb hflip hb]
      · rw [swap_abandoned s e fb hfb hflip hw hb]
  · rw [swap_rejected s e fb hfb hflip]

theorem swap_status_returned (s : SwapState) (e : SwapEnv)
    (hret : (GBM_GLES_SwapWindow s e).status = .returned) :
    (drm_fb_get_from_bo s.user_data e.front e.addfb_ret e.addfb_id).fb ≠ none := by
  intro hfb
  simp [swap_fault s e hfb] at hret

/-- After calls that returned, either no call was made or `first_flip` is
clear. -/
theorem final_state_first_flip (es : List SwapEnv) (s s1 : SwapState)
    (hfin : final_state s es = some s1) : s1 = s ∨ s1.first_flip = false := by
  induction es generalizing s with
  | nil => left; simpa [final_state] using hfin.symm
  | cons e es ih =>
    simp only [final_state] at hfin
    cases hst : (GBM_GLES_SwapWindow s e).status with
    | returned =>
      simp only [hst] at hfin
      have hff := swap_first_flip s e (swap_status_returned s e hst)
      rcases ih _ hfin with h | h
      · right; rw [h]; exact hff
      · right; exact h
    | null_deref => simp [hst] at hfin
    | blocked => simp [hst] at hfin

theorem fb_lookup_none (ud : UserData) (bo : Nat) (r : Int) (i : Nat) :
    (drm_fb_get_from_bo ud bo r i).fb = none ↔ gbm_bo_get_user_data ud bo = none ∧ r ≠ 0 := by
  unfold drm_fb_get_from_bo
  split
  · simp_all
  · split_ifs <;> simp_all

/-- One call, entered with no flip outstanding and not abandoned in its wait,
requests no flip while one is outstanding, and when it returns none is
outstanding. -/
theorem swap_sequential (s : SwapState) (e : SwapEnv) (g : Ghost)
    (hp : g.pending = false) (hq : g.sequential = true)
    (hw : e.pageflip_ret = 0 →
      (wait_for_flip true e.wait).1 = .flipped ∨ (wait_for_flip true e.wait).1 = .blocked) :
    (observe g (GBM_GLES_SwapWindow s e).trace).sequential = true ∧
      ((GBM_GLES_SwapWindow s e).status = .returned →
        (observe g (GBM_GLES_SwapWindow s e).trace).pending = false) := by
  cases hfb : (drm_fb_get_from_bo s.user_data e.front e.addfb_ret e.addfb_id).fb with
  | none =>
    rw [swap_fault s e hfb]
    simp [observe_append, observe, Ghost.step, fb_trace_observe, hq]
  | some fb =>
    by_cases hflip : e.pageflip_ret = 0
    · rcases hw hflip with h | h
      · rw [swap_flipped s e fb hfb hflip h]
        simp only [observe_append, flip_request_observe, wait_observe, h, if_true]
        cases (after_first_flip s).bo <;> simp [observe, Ghost.step, hp, hq]
      · rw [swap_blocked s e fb hfb hflip h]
        simp [observe_append, flip_request_observe, wait_observe, h, hp, hq]
    · rw [swap_rejected s e fb hfb hflip]
      simp [flip_request_observe, hp, hq, hflip]

theorem run_sequential (es : List SwapEnv) (s : SwapState) (g : Ghost)
    (hp : g.pending = false) (hq : g.sequential = true)
    (hw : ∀ e ∈ es, e.pageflip_ret = 0 →
      (wait_for_flip true e.wait).1 = .flipped ∨ (wait_for_flip true e.wait).1 = .blocked) :
    (observe g (run_trace s es)).sequential = true := by
  induction es generalizing s g with
  | nil => simpa [run_trace, observe] using hq
  | cons e es ih =>
    have hstep := swap_sequential s e g hp hq (hw e (List.mem_cons_self _ _))
    simp only [run_trace]
    cases hst : (GBM_GLES_SwapWindow s e).status with
    | returned =>
      simp only [observe_append]
      exact ih _ _ (hstep.2 hst) hstep.1 (fun x hx => hw x (List.mem_cons_of_mem _ hx))
    | null_deref => simpa using hstep.1
    | blocked => simpa using hstep.1

/-- A buffer that carries user data gets it back, with no device call. -/
theorem fb_cached (ud : UserData) (bo : Nat) (fb : drm_fb) (r : Int) (i : Nat)
    (h : gbm_bo_get_user_data ud bo = some fb) :
    drm_fb_get_from_bo ud bo r i = { fb := some fb, user_data := ud, trace := [] } := by
  simp [drm_fb_get_from_bo, h]

/-- The user data of every call is the one `drm_fb_get_from_bo` leaves. -/
theorem swap_user_data (s : SwapState) (e : SwapEnv) :
    (GBM_GLES_SwapWindow s e).state.user_data =
      (drm_fb_get_from_bo s.user_data e.front e.addfb_ret e.addfb_id).user_data := by
  cases hfb : (drm_fb_get_from_bo s.user_data e.front e.addfb_ret e.addfb_id).fb with
  | none => rw [swap_fault s e hfb]
  | some fb =>
    by_cases hflip : e.pageflip_ret = 0
    · by_cases hw : (wait_for_flip true e.wait).1 = .flipped
      · rw [swap_flipped s e fb hfb hflip hw]
      · by_cases hb : (wait_for_flip true e.wait).1 = .blocked
        · rw [swap_blocked s e fb hfb hflip hb]
        · rw [swap_abandoned s e fb hfb hflip hw hb]
    · rw [swap_rejected s e fb hfb hflip]

/-- User data, once attached, stays attached through `drm_fb_get_from_bo`. -/
theorem fb_user_data_kept (ud : UserData) (b bo : Nat) (fb : drm_fb) (r : Int) (i : Nat)
    (h : gbm_bo_get_user_data ud bo = some fb) :
    gbm_bo_get_user_data (drm_fb_get_from_bo ud b r i).user_data bo = some fb := by
  unfold drm_fb_get_from_bo
  split
  · exact h
  · rename_i hnone
    split_ifs
    · exact h
    · have hne : b ≠ bo := by
        intro hc
        rw [hc, h] at hnone
        simp at hnone
      simp [gbm_bo_get_user_data, hne, h]

/-- The `drmModeAddFB` calls of `drm_fb_get_from_bo` for a given buffer. -/
theorem fb_trace_addfb_calls (ud : UserData) (b bo : Nat) (r : Int) (i : Nat) :
    addfb_calls bo (drm_fb_get_from_bo ud b r i).trace =
      if gbm_bo_get_user_data ud b = none ∧ b = bo then 1 else 0 := by
  unfold drm_fb_get_from_bo
  split
  · simp_all [addfb_calls]
  · split_ifs <;> simp_all [addfb_calls]

theorem fb_trace_addfb_registered (ud : UserData) (b bo : Nat) (r : Int) (i : Nat) :
    addfb_registered bo (drm_fb_get_from_bo ud b r i).trace =
      if gbm_bo_get_user_data ud b = none ∧ b = bo ∧ r = 0 then 1 else 0 := by
  unfold drm_fb_get_from_bo
  split
  · simp_all [addfb_registered]
  · split_ifs <;> simp_all [addfb_registered]

/-- A successful registration attaches user data. -/
theorem fb_registered_attached (ud : UserData) (bo : Nat) (i : Nat)
    (h : gbm_bo_get_user_data ud bo = none) :
    gbm_bo_get_user_data (drm_fb_get_from_bo ud bo 0 i).user_data bo =
      some { bo := bo, fb_id := i } := by
  simp [drm_fb_get_from_bo, h, gbm_bo_get_user_data]

theorem flip_request_addfb_calls (s : SwapState) (e : SwapEnv) (fb : drm_fb) (bo : Nat) :
    addfb_calls bo (flip_request_trace s e fb) =
      addfb_calls bo (drm_fb_get_from_bo s.user_data e.front e.addfb_ret e.addfb_id).trace := by
  unfold flip_request_trace
  split_ifs <;> simp [addfb_calls_append, addfb_calls]

theorem flip_request_addfb_registered (s : SwapState) (e : SwapEnv) (fb : drm_fb) (bo : Nat) :
    addfb_registered bo (flip_request_trace s e fb) =
      addfb_registered bo
        (drm_fb_get_from_bo s.user_data e.front e.addfb_ret e.addfb_id).trace := by
  unfold flip_request_trace
  split_ifs <;> simp [addfb_registered_append, addfb_registered]

/-- The `drmModeAddFB` calls of a present call are those of its
`drm_fb_get_from_bo`. -/
theorem swap_addfb_calls (s : SwapState) (e : SwapEnv) (bo : Nat) :
    addfb_calls bo (GBM_GLES_SwapWindow s e).trace =
      addfb_calls bo (drm_fb_get_from_bo s.user_data e.front e.addfb_ret e.addfb_id).trace := by
  cases hfb : (drm_fb_get_from_bo s.user_data e.front e.addfb_ret e.addfb_id).fb with
  | none => simp [swap_fault s e hfb, addfb_calls_append, addfb_calls]
  | some fb =>
    by_cases hflip : e.pageflip_ret = 0
    · by_cases hw : (wait_for_flip true e.wait).1 = .flipped
      · rw [swap_flipped s e fb hfb hflip hw]
        simp only [addfb_calls_append, flip_request_addfb_calls, wait_addfb_calls]
        cases (after_first_flip s).bo <;> simp [addfb_calls]
      · by_cases hb : (wait_for_flip true e.wait).1 = .blocked
        · rw [swap_blocked s e fb hfb hflip hb]
          simp [addfb_calls_append, flip_request_addfb_calls, wait_addfb_calls]
        · rw [swap_abandoned s e fb hfb hflip hw hb]
          simp [addfb_calls_append, flip_request_addfb_calls, wait_addfb_calls]
    · rw [swap_rejected s e fb hfb hflip]
      simp [flip_request_addfb_calls]

theorem swap_addfb_registered (s : SwapState) (e : SwapEnv) (bo : Nat) :
    addfb_registered bo (GBM_GLES_SwapWindow s e).trace =
      addfb_registered bo
        (drm_fb_get_from_bo s.user_data e.front e.addfb_ret e.addfb_id).trace := by
  cases hfb : (drm_fb_get_from_bo s.user_data e.front e.addfb_ret e.addfb_id).fb with
  | none => simp [swap_fault s e hfb, addfb_registered_append, addfb_registered]
  | some fb =>
    by_cases hflip : e.pageflip_ret = 0
    · by_cases hw : (wait_for_flip true e.wait).1 = .flipped
      · rw [swap_flipped s e fb hfb hflip hw]
        simp only [addfb_registered_append, flip_request_addfb_registered,
          wait_addfb_registered]
        cases (after_first_flip s).bo <;> simp [addfb_registered]
      · by_cases hb : (wait_for_flip true e.wait).1 = .blocked
        · rw [swap_blocked s e fb hfb hflip hb]
          simp [addfb_registered_append, flip_request_addfb_registered, wait_addfb_registered]
        · rw [swap_abandoned s e fb hfb hflip hw hb]
          simp [addfb_registered_append, flip_request_addfb_registered, wait_addfb_registered]
    · rw [swap_rejected s e fb hfb hflip]
      simp [flip_request_addfb_registered]

/-- Once a buffer carries user data, no later call registers it again and the
user data stays the same. -/
theorem run_cached (es : List SwapEnv) (s : SwapState) (bo : Nat) (fb : drm_fb)
    (h : gbm_bo_get_user_data s.user_data bo = some fb) :
    addfb_calls bo (run_trace s es) = 0 ∧
      ∀ s1, final_state s es = some s1 → gbm_bo_get_user_data s1.user_data bo = some fb := by
  induction es generalizing s with
  | nil =>
    refine ⟨rfl, fun s1 h1 => ?_⟩
    simp only [final_state, Option.some.injEq] at h1
    rw [← h1]; exact h
  | cons e es ih =>
    have hkeep : gbm_bo_get_user_data (GBM_GLES_SwapWindow s e).state.user_data bo = some fb := by
      rw [swap_user_data]; exact fb_user_data_kept _ _ _ _ _ _ h
    have hcall : addfb_calls bo (GBM_GLES_SwapWindow s e).trace = 0 := by
      rw [swap_addfb_calls, fb_trace_addfb_calls]
      split_ifs with hc
      · rw [hc.2, h] at hc; simp at hc
      · rfl
    simp only [run_trace, final_state, addfb_calls_append, hcall]
    cases hst : (GBM_GLES_SwapWindow s e).status with
    | returned => simpa using ih _ hkeep
    | null_deref => simp [addfb_calls]
    | blocked => simp [addfb_calls]

theorem addfb_registered_le_calls (bo : Nat) (t : List Event) :
    addfb_registered bo t ≤ addfb_calls bo t := by
  induction t with
  | nil => simp [addfb_registered, addfb_calls]
  | cons ev t ih =>
    cases ev <;> simp [addfb_registered, addfb_calls, ih]
    split_ifs <;> omega

/-- From any state, a buffer is registered at most once by a sequence of
calls. -/
theorem run_registered_once (es : List SwapEnv) (s : SwapState) (bo : Nat) :
    addfb_registered bo (run_trace s es) ≤ 1 := by
  induction es generalizing s with
  | nil => simp [run_trace, addfb_registered]
  | cons e es ih =>
    simp only [run_trace, addfb_registered_append]
    have hcall := swap_addfb_registered s e bo
    rw [fb_trace_addfb_registered] at hcall
    cases hst : (GBM_GLES_SwapWindow s e).status with
    | returned =>
      simp only []
      split_ifs at hcall with hc
      · obtain ⟨hnone, hb, hr⟩ := hc
        have hatt : gbm_bo_get_user_data (GBM_GLES_SwapWindow s e).state.user_data bo =
            some { bo := bo, fb_id := e.addfb_id } := by
          rw [swap_user_data, hr, hb]
          exact fb_registered_attached _ _ _ (hb ▸ hnone)
        have h0 := (run_cached es _ bo _ hatt).1
        have hle := addfb_registered_le_calls bo (run_trace (GBM_GLES_SwapWindow s e).state es)
        omega
      · have := ih (GBM_GLES_SwapWindow s e).state
        omega
    | null_deref =>
      simp only [addfb_registered]
      split_ifs at hcall <;> omega
    | blocked =>
      simp only [addfb_registered]
      split_ifs at hcall <;> omega

/-- Once `first_flip` is clear, no call of a sequence makes a mode-set. -/
theorem present_calls_no_setcrtc (es : List SwapEnv) (s : SwapState)
    (hff : s.first_flip = false) :
    ∀ r ∈ present_calls s es, setcrtc_count r.trace = 0 := by
  induction es generalizing s with
  | nil => simp [present_calls]
  | cons e es ih =>
    intro r hr
    simp only [present_calls, List.mem_cons] at hr
    rcases hr with hr | hr
    · rw [hr, swap_setcrtc_count]
      simp [hff]
    · cases hst : (GBM_GLES_SwapWindow s e).status with
      | returned =>
        simp only [hst] at hr
        exact ih _ (swap_first_flip s e (swap_status_returned s e hst)) r hr
      | null_deref => simp [hst] at hr
      | blocked => simp [hst] at hr

theorem startup_fb (d : SDL_DisplayData) (e : SwapEnv) (hfb : e.addfb_ret = 0) :
    drm_fb_get_from_bo (startup d).user_data e.front e.addfb_ret e.addfb_id =
      { fb := some { bo := e.front, fb_id := e.addfb_id },
        user_data := [(e.front, { bo := e.front, fb_id := e.addfb_id })],
        trace := [Event.drmModeAddFB e.front 0 e.addfb_id] } := by
  simp [drm_fb_get_from_bo, startup, gbm_bo_get_user_data, hfb]

theorem wait_handler_mem (fds0 : Bool) (w : List SelectStep) :
    Event.page_flip_handler ∈ (wait_for_flip fds0 w).2 ↔ (wait_for_flip fds0 w).1 = .flipped := by
  induction w generalizing fds0 with
  | nil => simp [wait_for_flip]
  | cons st rest ih =>
    simp only [wait_for_flip]
    split_ifs <;> simp_all

theorem fb_trace_handler (ud : UserData) (bo : Nat) (r : Int) (i : Nat) :
    Event.page_flip_handler ∉ (drm_fb_get_from_bo ud bo r i).trace := by
  unfold drm_fb_get_from_bo
  split
  · simp
  · split_ifs <;> simp

theorem flip_request_handler (s : SwapState) (e : SwapEnv) (fb : drm_fb) :
    Event.page_flip_handler ∉ flip_request_trace s e fb := by
  unfold flip_request_trace
  split_ifs <;> simp [fb_trace_handler]

/-- A present call is successful exactly when its framebuffer handle resolves,
its flip request is accepted and its wait observes the completion event. -/
theorem swap_presented (s : SwapState) (e : SwapEnv) :
    presented (GBM_GLES_SwapWindow s e) ↔
      ∃ fb, (drm_fb_get_from_bo s.user_data e.front e.addfb_ret e.addfb_id).fb = some fb ∧
        e.pageflip_ret = 0 ∧ (wait_for_flip true e.wait).1 = .flipped := by
  unfold presented
  cases hfb : (drm_fb_get_from_bo s.user_data e.front e.addfb_ret e.addfb_id).fb with
  | none => simp [swap_fault s e hfb]
  | some fb =>
    by_cases hflip : e.pageflip_ret = 0
    · by_cases hw : (wait_for_flip true e.wait).1 = .flipped
      · rw [swap_flipped s e fb hfb hflip hw]
        simp [hflip, hw, (wait_handler_mem true e.wait).2 hw]
      · by_cases hb : (wait_for_flip true e.wait).1 = .blocked
        · rw [swap_blocked s e fb hfb hflip hb]
          simp [hw]
        · rw [swap_abandoned s e fb hfb hflip hw hb]
          simp [hw, flip_request_handler, wait_handler_mem]
    · rw [swap_rejected s e fb hfb hflip]
      simp [hflip, flip_request_handler]

/-- What a successful present call releases and records. -/
theorem presented_effect (s : SwapState) (e : SwapEnv) (h : presented (GBM_GLES_SwapWindow s e)) :
    released (GBM_GLES_SwapWindow s e).trace = (after_first_flip s).bo.toList ∧
      (GBM_GLES_SwapWindow s e).state.displaydata.bo = some e.front ∧
      (GBM_GLES_SwapWindow s e).state.first_flip = false := by
  obtain ⟨fb, hfb, hflip, hw⟩ := (swap_presented s e).1 h
  refine ⟨?_, ?_, ?_⟩
  · rw [swap_released, if_pos ⟨by rw [hfb]; simp, hflip, hw⟩]
  · rw [swap_flipped s e fb hfb hflip hw]
  · rw [swap_flipped s e fb hfb hflip hw]

/-- What the connector loop returns when it finds a connector: the first one
in enumeration order that reports the connected state. -/
theorem find_connector_some (getConnector : Nat → Option drmModeConnector) (ids : List Nat)
    (connector : drmModeConnector)
    (h : find_connector getConnector ids = .ok (some connector)) :
    ∃ pre id post, ids = pre ++ id :: post ∧ getConnector id = some connector ∧
      connector.connection = .DRM_MODE_CONNECTED ∧
      ∀ j ∈ pre, ∃ c, getConnector j = some c ∧ c.connection ≠ .DRM_MODE_CONNECTED := by
  induction ids with
  | nil => simp [find_connector] at h
  | cons id ids ih =>
    simp only [find_connector] at h
    cases hc : getConnector id with
    | none => simp [hc] at h
    | some c =>
      simp only [hc] at h
      split_ifs at h with hconn
      · simp only [Except.ok.injEq, Option.some.injEq] at h
        subst h
        exact ⟨[], id, ids, rfl, hc, hconn, by simp⟩
      · obtain ⟨pre, i, post, hids, hget, hcon, hpre⟩ := ih h
        refine ⟨id :: pre, i, post, by simp [hids], hget, hcon, ?_⟩
        intro j hj
        rcases List.mem_cons.1 hj with hj | hj
        · exact ⟨c, hj ▸ hc, hconn⟩
        · exact hpre j hj

/-- The connector loop finds nothing when no connector reports connected. -/
theorem find_connector_none (getConnector : Nat → Option drmModeConnector) (ids : List Nat)
    (h : ∀ id ∈ ids, ∃ c, getConnector id = some c ∧ c.connection ≠ .DRM_MODE_CONNECTED) :
    find_connector getConnector ids = .ok none := by
  induction ids with
  | nil => rfl
  | cons id ids ih =>
    obtain ⟨c, hc, hconn⟩ := h id (List.mem_cons_self _ _)
    simp only [find_connector, hc, hconn, if_false]
    exact ih (fun j hj => h j (List.mem_cons_of_mem _ hj))

/-- What the encoder loop returns when it finds an encoder: the first one in
enumeration order whose identifier is the wanted one. -/
theorem find_encoder_some (getEncoder : Nat → Option drmModeEncoder) (want : Nat)
    (ids : List Nat) (encoder : drmModeEncoder)
    (h : find_encoder getEncoder want ids = .ok (some encoder)) :
    ∃ pre id post, ids = pre ++ id :: post ∧ getEncoder id = some encoder ∧
      encoder.encoder_id = want ∧
      ∀ j ∈ pre, ∃ c, getEncoder j = some c ∧ c.encoder_id ≠ want := by
  induction ids with
  | nil => simp [find_encoder] at h
  | cons id ids ih =>
    simp only [find_encoder] at h
    cases hc : getEncoder id with
    | none => simp [hc] at h
    | some c =>
      simp only [hc] at h
      split_ifs at h with hid
      · simp only [Except.ok.injEq, Option.some.injEq] at h
        subst h
        exact ⟨[], id, ids, rfl, hc, hid, by simp⟩
      · obtain ⟨pre, i, post, hids, hget, hcon, hpre⟩ := ih h
        refine ⟨id :: pre, i, post, by simp [hids], hget, hcon, ?_⟩
        intro j hj
        rcases List.mem_cons.1 hj with hj | hj
        · exact ⟨c, hj ▸ hc, hid⟩
        · exact hpre j hj

/-- The encoder loop finds nothing when no encoder has the wanted identifier. -/
theorem find_encoder_none (getEncoder : Nat → Option drmModeEncoder) (want : Nat)
    (ids : List Nat)
    (h : ∀ id ∈ ids, ∃ c, getEncoder id = some c ∧ c.encoder_id ≠ want) :
    find_encoder getEncoder want ids = .ok none := by
  induction ids with
  | nil => rfl
  | cons id ids ih =>
    obtain ⟨c, hc, hid⟩ := h id (List.mem_cons_self _ _)
    simp only [find_encoder, hc, hid, if_false]
    exact ih (fun j hj => h j (List.mem_cons_of_mem _ hj))

/-- The connector loop selects a connected connector when every connector
enumerated before it reports another state. -/
theorem find_connector_finds (getConnector : Nat → Option drmModeConnector)
    (pre : List Nat) (id : Nat) (post : List Nat) (connector : drmModeConnector)
    (hget : getConnector id = some connector)
    (hconn : connector.connection = .DRM_MODE_CONNECTED)
    (hpre : ∀ j ∈ pre, ∃ c, getConnector j = some c ∧ c.connection ≠ .DRM_MODE_CONNECTED) :
    find_connector getConnector (pre ++ id :: post) = .ok (some connector) := by
  induction pre with
  | nil => simp [find_connector, hget, hconn]
  | cons j js ih =>
    obtain ⟨c, hc, hne⟩ := hpre j (List.mem_cons_self _ _)
    simp only [List.cons_append, find_connector, hc, hne, if_false]
    exact ih (fun k hk => hpre k (List.mem_cons_of_mem _ hk))

/-- The encoder loop selects an encoder with the wanted identifier when every
encoder enumerated before it has another identifier. -/
theorem find_encoder_finds (getEncoder : Nat → Option drmModeEncoder) (want : Nat)
    (pre : List Nat) (id : Nat) (post : List Nat) (encoder : drmModeEncoder)
    (hget : getEncoder id = some encoder) (hid : encoder.encoder_id = want)
    (hpre : ∀ j ∈ pre, ∃ c, getEncoder j = some c ∧ c.encoder_id ≠ want) :
    find_encoder getEncoder want (pre ++ id :: post) = .ok (some encoder) := by
  induction pre with
  | nil => simp [find_encoder, hget, hid]
  | cons j js ih =>
    obtain ⟨c, hc, hne⟩ := hpre j (List.mem_cons_self _ _)
    simp only [List.cons_append, find_encoder, hc, hne, if_false]
    exact ih (fun k hk => hpre k (List.mem_cons_of_mem _ hk))

/-- The `int` product is the exact area as long as the area fits an `int`. -/
theorem current_area_exact (m : drmModeModeInfo) (h : mode_area m ≤ INT_MAX) :
    current_area m = (mode_area m : Int) := by
  unfold current_area int_wrap
  unfold mode_area INT_MAX at h
  unfold mode_area
  have h0 : (0 : Int) ≤ (m.hdisplay : Int) * (m.vdisplay : Int) := by positivity
  have h1 : (m.hdisplay : Int) * (m.vdisplay : Int) ≤ 2147483647 := by exact_mod_cast h
  push_cast
  omega

/-- The mode loop in terms of the `int` it compares: either no mode beats the
area so far and `data->mode` is left alone, or the result is the first mode
whose `current_area` is largest, which beats the area so far. -/
theorem find_mode_spec (l : List drmModeModeInfo) (area : Int) (mode : Option drmModeModeInfo) :
    (find_mode l area mode = mode ∧ ∀ x ∈ l, current_area x ≤ area) ∨
      ∃ pre y post, l = pre ++ y :: post ∧ find_mode l area mode = some y ∧
        area < current_area y ∧
        (∀ x ∈ pre, current_area x < current_area y) ∧
        (∀ x ∈ post, current_area x ≤ current_area y) := by
  induction l generalizing area mode with
  | nil =>
    left
    exact ⟨rfl, by simp⟩
  | cons cur rest ih =>
    simp only [find_mode]
    split_ifs with hgt
    · rcases ih (current_area cur) (some cur) with
        ⟨hr, hall⟩ | ⟨pre, y, post, hl, hr, hlt, hpre, hpost⟩
      · right
        exact ⟨[], cur, rest, rfl, hr, hgt, by simp, hall⟩
      · right
        refine ⟨cur :: pre, y, post, by simp [hl], hr, lt_trans hgt hlt, ?_, hpost⟩
        intro x hx
        rcases List.mem_cons.1 hx with hx | hx
        · rw [hx]; exact hlt
        · exact hpre x hx
    · rcases ih area mode with ⟨hr, hall⟩ | ⟨pre, y, post, hl, hr, hlt, hpre, hpost⟩
      · left
        refine ⟨hr, ?_⟩
        intro x hx
        rcases List.mem_cons.1 hx with hx | hx
        · rw [hx]; exact not_lt.1 hgt
        · exact hall x hx
      · right
        refine ⟨cur :: pre, y, post, by simp [hl], hr, hlt, ?_, hpost⟩
        intro x hx
        rcases List.mem_cons.1 hx with hx | hx
        · rw [hx]; exact lt_of_le_of_lt (not_lt.1 hgt) hlt
        · exact hpre x hx

/-- A discovery that returns 0 went through all four stages. -/
theorem init_drm_ok (env : DrmEnv) (data0 data : SDL_DisplayData)
    (h : init_drm env data0 = .ok (0, data)) :
    ∃ resources connector mode encoder,
      env.drmModeGetResources = some resources ∧
      find_connector env.drmModeGetConnector resources.connectors = .ok (some connector) ∧
      find_mode connector.modes 0 data0.mode = some mode ∧
      find_encoder env.drmModeGetEncoder connector.encoder_id resources.encoders =
        .ok (some encoder) ∧
      data = { data0 with fd := open_modules env.drmOpen data0.fd modules, mode := some mode,
                          crtc_id := encoder.crtc_id,
                          connector_id := connector.connector_id } := by
  unfold init_drm at h
  simp only [] at h
  split_ifs at h with hfd
  · simp at h
  · split at h
    · simp at h
    · rename_i resources hres
      split at h
      · simp at h
      · simp at h
      · rename_i connector hconn
        split at h
        · simp at h
        · rename_i mode hmode
          split at h
          · simp at h
          · simp at h
          · rename_i encoder henc
            simp only [Except.ok.injEq, Prod.mk.injEq, true_and] at h
            exact ⟨resources, connector, mode, encoder, hres, hconn, hmode, henc, h.symm⟩

/-- A discovery whose four stages succeed returns 0 and records the mode, the
encoder's controller id and the connector's id. -/
theorem init_drm_success (env : DrmEnv) (resources : drmModeRes)
    (connector : drmModeConnector) (mode : drmModeModeInfo) (encoder : drmModeEncoder)
    (hfd : 0 ≤ open_modules env.drmOpen 0 modules)
    (hres : env.drmModeGetResources = some resources)
    (hconn : find_connector env.drmModeGetConnector resources.connectors =
      .ok (some connector))
    (hmode : find_mode connector.modes 0 none = some mode)
    (henc : find_encoder env.drmModeGetEncoder connector.encoder_id resources.encoders =
      .ok (some encoder)) :
    init_drm env SDL_calloc_DisplayData =
      .ok (0, { SDL_calloc_DisplayData with
                fd := open_modules env.drmOpen 0 modules, mode := some mode,
                crtc_id := encoder.crtc_id, connector_id := connector.connector_id }) := by
  have hfd1 : ¬ open_modules env.drmOpen 0 modules < 0 := not_lt.2 hfd
  simp [init_drm, SDL_calloc_DisplayData, hfd1, hres, hconn, hmode, henc]

/-- Without overflow, a discovery that returns 0 records the first mode of
largest area: when every mode the selected connector offers has an area that
fits an `int`, the recorded mode is an entry of the list whose area is at
least that of every offered mode, and every mode before it is strictly
smaller. -/
theorem init_drm_mode_maximal (env : DrmEnv) (data : SDL_DisplayData)
    (h : init_drm env SDL_calloc_DisplayData = .ok (0, data)) :
    ∃ resources connector pre mode post,
      env.drmModeGetResources = some resources ∧
      find_connector env.drmModeGetConnector resources.connectors = .ok (some connector) ∧
      connector.modes = pre ++ mode :: post ∧
      data.mode = some mode ∧
      ((∀ m ∈ connector.modes, mode_area m ≤ INT_MAX) →
        (∀ m ∈ pre, mode_area m < mode_area mode) ∧
        (∀ m ∈ connector.modes, mode_area m ≤ mode_area mode)) := by
  obtain ⟨resources, connector, mode, encoder, hres, hconn, hmode, -, hdata⟩ :=
    init_drm_ok env _ data h
  rcases find_mode_spec connector.modes 0 SDL_calloc_DisplayData.mode with
    ⟨hr, -⟩ | ⟨pre, y, post, hl, hr, -, hpre, hpost⟩
  · rw [hmode] at hr
    simp [SDL_calloc_DisplayData] at hr
  · rw [hmode, Option.some.injEq] at hr
    subst hr
    refine ⟨resources, connector, pre, mode, post, hres, hconn, hl, by rw [hdata], ?_⟩
    intro hfit
    have hmem : mode ∈ connector.modes := by rw [hl]; simp
    have hin : ∀ m, m ∈ pre ∨ m ∈ post → m ∈ connector.modes := by
      intro m hm
      rw [hl]
      rcases hm with hm | hm
      · exact List.mem_append_left _ hm
      · exact List.mem_append_right _ (List.mem_cons_of_mem _ hm)
    have hlt : ∀ m ∈ pre, mode_area m < mode_area mode := by
      intro m hm
      have := hpre m hm
      rw [current_area_exact m (hfit m (hin m (Or.inl hm))),
        current_area_exact mode (hfit mode hmem)] at this
      exact_mod_cast this
    refine ⟨hlt, ?_⟩
    intro m hm
    rw [hl] at hm
    rcases List.mem_append.1 hm with hm | hm
    · exact le_of_lt (hlt m hm)
    · rcases List.mem_cons.1 hm with hm | hm
      · rw [hm]
      · have := hpost m hm
        rw [current_area_exact m (hfit m (hin m (Or.inr hm))),
          current_area_exact mode (hfit mode hmem)] at this
        exact_mod_cast this

/-! ## The claims -/

/-- C1. In every sequence of present calls from a freshly initialised display
record (its `bo` is NULL), on a surface whose acquire never hands out a buffer
that is still acquired and unreleased: when a call releases a buffer `b`, then
`b` is the buffer of the latest earlier flip whose completion was observed, it
is the buffer recorded in `displaydata->bo` before the call, it is the only
buffer the call releases, and it differs from the buffer the call has just
flipped to, which is the one recorded after the call. -/
theorem C1_release_targets_prior_flip (d : SDL_DisplayData) (hd : d.bo = none)
    (pre : List SwapEnv) (e : SwapEnv) (s : SwapState) (b : Nat)
    (hs : final_state (startup d) pre = some s)
    (hfresh : (observe Ghost.init (run_trace (startup d) (pre ++ [e]))).fresh = true)
    (hrel : Event.gbm_surface_release_buffer b ∈ (GBM_GLES_SwapWindow s e).trace) :
    (observe Ghost.init (run_trace (startup d) pre)).shown = some b ∧
      s.displaydata.bo = some b ∧
      released (GBM_GLES_SwapWindow s e).trace = [b] ∧
      b ≠ e.front ∧
      (observe Ghost.init (run_trace (startup d) (pre ++ [e]))).shown = some e.front ∧
      (GBM_GLES_SwapWindow s e).state.displaydata.bo = some e.front := by
  rw [run_trace_append, hs, observe_append] at hfresh ⊢
  have hcall : run_trace s [e] = (GBM_GLES_SwapWindow s e).trace := by
    simp only [run_trace]
    cases (GBM_GLES_SwapWindow s e).status <;> simp
  simp only [hcall] at hfresh ⊢
  have hcons := run_consistent pre (startup d) s Ghost.init (startup_consistent d hd) hs
    (observe_fresh_mono _ _ hfresh)
  have hbo := after_first_flip_bo s _ hcons
  obtain ⟨h1, h2, -⟩ := hcons
  rw [mem_released, swap_released] at hrel
  rw [swap_released]
  split_ifs at hrel ⊢ with hc
  · obtain ⟨hfb, hflip, hw⟩ := hc
    obtain ⟨fb, hfb⟩ := Option.ne_none_iff_exists'.1 hfb
    rw [hbo] at hrel ⊢
    have hsh : (observe Ghost.init (run_trace (startup d) pre)).shown = some b := by
      cases hx : (observe Ghost.init (run_trace (startup d) pre)).shown with
      | none => simp [hx] at hrel
      | some x => simp [hx] at hrel; rw [hrel]
    rw [swap_flipped s e fb hfb hflip hw] at hfresh ⊢
    simp only [observe_append, flip_request_observe, wait_observe, hw, if_true, hbo, hsh,
      observe, Ghost.step, Bool.and_eq_true, decide_eq_true_eq] at hfresh ⊢
    refine ⟨trivial, h1.trans hsh, by simp, ?_, trivial, trivial⟩
    intro hc
    exact hfresh.2 (hc ▸ h2 b hsh)
  · simp at hrel

/-- Instance of `C1_release_targets_prior_flip` on a concrete input. -/
theorem C1_release_targets_prior_flip_witness :
    (observe Ghost.init (run_trace (startup SDL_calloc_DisplayData) [frame_ok 1])).shown = some 1 ∧
      state_after_frame_1.displaydata.bo = some 1 ∧
      released (GBM_GLES_SwapWindow state_after_frame_1 (frame_ok 2)).trace = [1] ∧
      1 ≠ (frame_ok 2).front ∧
      (observe Ghost.init
        (run_trace (startup SDL_calloc_DisplayData) ([frame_ok 1] ++ [frame_ok 2]))).shown =
          some (frame_ok 2).front ∧
      (GBM_GLES_SwapWindow state_after_frame_1 (frame_ok 2)).state.displaydata.bo =
        some (frame_ok 2).front :=
  C1_release_targets_prior_flip SDL_calloc_DisplayData rfl [frame_ok 1] (frame_ok 2)
    state_after_frame_1 1 (by decide) (by decide) (by decide)

/-- C2. In every state reached from start-up on a fresh display record by
calls that returned, a present call that issues its page-flip request and has
it rejected, or whose wait ends with a `select` error, a timeout or descriptor
0 ready, returns, releases no buffer and leaves `displaydata->bo` as it was
before the call. -/
theorem C2_abandoned_call_keeps_record (d : SDL_DisplayData) (hd : d.bo = none)
    (es : List SwapEnv) (s : SwapState) (e : SwapEnv)
    (hs : final_state (startup d) es = some s)
    (hissued : pageflip_count (GBM_GLES_SwapWindow s e).trace = 1)
    (habort : e.pageflip_ret ≠ 0 ∨ (wait_for_flip true e.wait).1 = .select_error ∨
      (wait_for_flip true e.wait).1 = .timeout ∨ (wait_for_flip true e.wait).1 = .cancelled) :
    (GBM_GLES_SwapWindow s e).status = .returned ∧
      released (GBM_GLES_SwapWindow s e).trace = [] ∧
      (GBM_GLES_SwapWindow s e).state.displaydata.bo = s.displaydata.bo := by
  have hrec : after_first_flip s = s.displaydata := by
    unfold after_first_flip
    rcases final_state_first_flip es _ s hs with h | h
    · subst h
      simp [startup, ← hd]
    · simp [h]
  rw [swap_pageflip_count] at hissued
  split_ifs at hissued with hfb
  obtain ⟨fb, hfb⟩ := Option.ne_none_iff_exists'.1 hfb
  by_cases hflip : e.pageflip_ret = 0
  · have hw : (wait_for_flip true e.wait).1 ≠ .flipped := by
      rcases habort with h | h | h | h
      · exact absurd hflip h
      all_goals rw [h]; decide
    have hb : (wait_for_flip true e.wait).1 ≠ .blocked := by
      rcases habort with h | h | h | h
      · exact absurd hflip h
      all_goals rw [h]; decide
    rw [swap_abandoned s e fb hfb hflip hw hb]
    simp [released_append, flip_request_released, wait_released, hrec]
  · rw [swap_rejected s e fb hfb hflip]
    simp [flip_request_released, hrec]

/-- Instance of `C2_abandoned_call_keeps_record` on a concrete input. -/
theorem C2_abandoned_call_keeps_record_witness :
    (GBM_GLES_SwapWindow state_after_frame_1 (frame_cancelled 2)).status = .returned ∧
      released (GBM_GLES_SwapWindow state_after_frame_1 (frame_cancelled 2)).trace = [] ∧
      (GBM_GLES_SwapWindow state_after_frame_1 (frame_cancelled 2)).state.displaydata.bo =
        state_after_frame_1.displaydata.bo :=
  C2_abandoned_call_keeps_record SDL_calloc_DisplayData rfl [frame_ok 1] state_after_frame_1
    (frame_cancelled 2) (by decide) (by decide) (by decide)

/-- C3. When `drm_fb_get_from_bo` returns no handle (the buffer carries no
user data and `drmModeAddFB` fails), `GBM_GLES_SwapWindow` does not abort the
presentation: it goes on to read `fb->fb_id` through the NULL pointer and
never returns.  Up to that point it has made no mode-set, no page-flip request
and no release, and the buffer is left without user data. -/
theorem C3_missing_framebuffer_null_deref (s : SwapState) (e : SwapEnv)
    (hfb : (drm_fb_get_from_bo s.user_data e.front e.addfb_ret e.addfb_id).fb = none) :
    (GBM_GLES_SwapWindow s e).status = .null_deref ∧
      (GBM_GLES_SwapWindow s e).status ≠ .returned ∧
      (GBM_GLES_SwapWindow s e).trace =
        [Event.SDL_EGL_SwapBuffers, Event.gbm_surface_lock_front_buffer e.front,
          Event.drmModeAddFB e.front e.addfb_ret 0] ∧
      gbm_bo_get_user_data (GBM_GLES_SwapWindow s e).state.user_data e.front = none := by
  have h := (fb_lookup_none _ _ _ _).1 hfb
  rw [swap_fault s e hfb]
  simp [drm_fb_get_from_bo, h.1, h.2]

/-- Instance of `C3_missing_framebuffer_null_deref` on a concrete input. -/
theorem C3_missing_framebuffer_null_deref_witness :
    (GBM_GLES_SwapWindow state_after_frame_1 (frame_nofb 2)).status = .null_deref ∧
      (GBM_GLES_SwapWindow state_after_frame_1 (frame_nofb 2)).status ≠ .returned ∧
      (GBM_GLES_SwapWindow state_after_frame_1 (frame_nofb 2)).trace =
        [Event.SDL_EGL_SwapBuffers, Event.gbm_surface_lock_front_buffer (frame_nofb 2).front,
          Event.drmModeAddFB (frame_nofb 2).front (frame_nofb 2).addfb_ret 0] ∧
      gbm_bo_get_user_data (GBM_GLES_SwapWindow state_after_frame_1 (frame_nofb 2)).state.user_data
        (frame_nofb 2).front = none :=
  C3_missing_framebuffer_null_deref state_after_frame_1 (frame_nofb 2) (by decide)

/-- C4 (as stated, refuted). From start-up, a call whose wait is ended by
descriptor 0 becoming ready returns with its flip request still outstanding,
and the next call requests a new flip all the same. -/
theorem C4_counterexample :
    (observe Ghost.init
      (run_trace (startup SDL_calloc_DisplayData) [frame_cancelled 1, frame_ok 2])).sequential
      = false := by
  decide

/-- C4 (amended). In every sequence of present calls from start-up in which no
wait is ended by an error, a timeout or cancellation (every call whose flip
request is accepted either observes the completion event or never returns), no
page-flip request is issued while an earlier one is outstanding. -/
theorem C4_flips_sequential_without_abandoned_wait (d : SDL_DisplayData) (es : List SwapEnv)
    (hw : ∀ e ∈ es, e.pageflip_ret = 0 →
      (wait_for_flip true e.wait).1 = .flipped ∨ (wait_for_flip true e.wait).1 = .blocked) :
    (observe Ghost.init (run_trace (startup d) es)).sequential = true :=
  run_sequential es (startup d) Ghost.init rfl rfl hw

/-- Instance of `C4_flips_sequential_without_abandoned_wait` on a concrete input. -/
theorem C4_flips_sequential_without_abandoned_wait_witness :
    (observe Ghost.init
      (run_trace (startup SDL_calloc_DisplayData)
        [frame_ok 1, frame_rejected 2, frame_ok 2])).sequential = true :=
  C4_flips_sequential_without_abandoned_wait SDL_calloc_DisplayData
    [frame_ok 1, frame_rejected 2, frame_ok 2] (by decide)

/-- C5. In every sequence of present calls from start-up, `drmModeAddFB`
succeeds at most once for each buffer object; and from any point of the run at
which a buffer carries the metadata `fb`, no later call makes a `drmModeAddFB`
call for that buffer, and `drm_fb_get_from_bo` on it returns that same `fb`
(same `fb_id`) with no device call and unchanged user data, in that state and
in every later one. -/
theorem C5_framebuffer_registered_once (d : SDL_DisplayData) (es : List SwapEnv) (bo : Nat) :
    addfb_registered bo (run_trace (startup d) es) ≤ 1 ∧
      ∀ (pre post : List SwapEnv) (s : SwapState) (fb : drm_fb),
        es = pre ++ post → final_state (startup d) pre = some s →
        gbm_bo_get_user_data s.user_data bo = some fb →
          addfb_calls bo (run_trace s post) = 0 ∧
          ∀ s1, final_state s post = some s1 → ∀ (r : Int) (i : Nat),
            drm_fb_get_from_bo s1.user_data bo r i =
              { fb := some fb, user_data := s1.user_data, trace := [] } := by
  refine ⟨run_registered_once es _ bo, ?_⟩
  intro pre post s fb _ _ h
  have hrun := run_cached post s bo fb h
  exact ⟨hrun.1, fun s1 h1 r i => fb_cached _ _ _ _ _ (hrun.2 s1 h1)⟩

/-- Instance of `C5_framebuffer_registered_once` on a concrete input. -/
theorem C5_framebuffer_registered_once_witness :
    addfb_registered 1
        (run_trace (startup SDL_calloc_DisplayData) [frame_ok 1, frame_ok 2, frame_ok 1]) ≤ 1 ∧
      addfb_calls 1 (run_trace state_after_frame_1 [frame_ok 2, frame_ok 1]) = 0 ∧
      drm_fb_get_from_bo state_after_frame_1.user_data 1 (-1) 7 =
        { fb := some { bo := 1, fb_id := 101 }, user_data := state_after_frame_1.user_data,
          trace := [] } :=
  ⟨(C5_framebuffer_registered_once SDL_calloc_DisplayData
      [frame_ok 1, frame_ok 2, frame_ok 1] 1).1,
    ((C5_framebuffer_registered_once SDL_calloc_DisplayData
      [frame_ok 1, frame_ok 2, frame_ok 1] 1).2 [frame_ok 1] [frame_ok 2, frame_ok 1]
      state_after_frame_1 { bo := 1, fb_id := 101 } rfl (by decide) (by decide)).1,
    ((C5_framebuffer_registered_once SDL_calloc_DisplayData
      [frame_ok 1] 1).2 [frame_ok 1] []
      state_after_frame_1 { bo := 1, fb_id := 101 } rfl (by decide) (by decide)).2
      state_after_frame_1 rfl (-1) 7⟩

/-- C6 (as stated, refuted). When `drmModeAddFB` fails in the first call since
start-up, that call makes no mode-set at all: it stops at the NULL `fb`, and
no later call is made. -/
theorem C6_counterexample :
    (present_calls (startup SDL_calloc_DisplayData) [frame_nofb 1, frame_ok 2]).map
      (fun r => (setcrtc_count r.trace, r.status)) = [(0, Status.null_deref)] := by
  decide

/-- C6 (amended). Over every sequence of present calls since start-up whose
first call resolves its framebuffer handle (`drmModeAddFB` succeeds): the first
call makes exactly one `drmModeSetCrtc`, directly followed by its
`drmModePageFlip` request whatever the mode-set returned, and no other
mode-set or flip request; every later call makes no mode-set, whatever the
first mode-set and the first flip returned. -/
theorem C6_one_mode_set_in_first_call (d : SDL_DisplayData) (e : SwapEnv) (es : List SwapEnv)
    (hfb : e.addfb_ret = 0) :
    ∃ (r : SwapResult) (rs : List SwapResult) (t : List Event),
      present_calls (startup d) (e :: es) = r :: rs ∧
      r.trace =
        [Event.SDL_EGL_SwapBuffers, Event.gbm_surface_lock_front_buffer e.front,
          Event.drmModeAddFB e.front 0 e.addfb_id,
          Event.drmModeSetCrtc e.addfb_id e.setcrtc_ret,
          Event.drmModePageFlip e.addfb_id e.pageflip_ret] ++ t ∧
      setcrtc_count t = 0 ∧ pageflip_count t = 0 ∧
      setcrtc_count r.trace = 1 ∧
      ∀ r1 ∈ rs, setcrtc_count r1.trace = 0 := by
  have hres := startup_fb d e hfb
  have hsome : (drm_fb_get_from_bo (startup d).user_data e.front e.addfb_ret e.addfb_id).fb =
      some { bo := e.front, fb_id := e.addfb_id } := by rw [hres]
  have hne : (drm_fb_get_from_bo (startup d).user_data e.front e.addfb_ret e.addfb_id).fb ≠
      none := by rw [hsome]; simp
  have hreq : flip_request_trace (startup d) e { bo := e.front, fb_id := e.addfb_id } =
      [Event.SDL_EGL_SwapBuffers, Event.gbm_surface_lock_front_buffer e.front,
        Event.drmModeAddFB e.front 0 e.addfb_id,
        Event.drmModeSetCrtc e.addfb_id e.setcrtc_ret,
        Event.drmModePageFlip e.addfb_id e.pageflip_ret] := by
    unfold flip_request_trace
    rw [hres]
    simp [startup]
  have hafter : (after_first_flip (startup d)).bo = none := by
    simp [after_first_flip, startup]
  have hcount : setcrtc_count (GBM_GLES_SwapWindow (startup d) e).trace = 1 := by
    rw [swap_setcrtc_count, if_pos ⟨hne, rfl⟩]
  have hrest : ∀ r1 ∈ (match (GBM_GLES_SwapWindow (startup d) e).status with
      | .returned => present_calls (GBM_GLES_SwapWindow (startup d) e).state es
      | _ => []), setcrtc_count r1.trace = 0 := by
    intro r1 hr1
    cases hst : (GBM_GLES_SwapWindow (startup d) e).status with
    | returned =>
      simp only [hst] at hr1
      exact present_calls_no_setcrtc es _ (swap_first_flip _ e hne) r1 hr1
    | null_deref => simp [hst] at hr1
    | blocked => simp [hst] at hr1
  refine ⟨GBM_GLES_SwapWindow (startup d) e, _, ?_, rfl, ?_, ?_, ?_, hcount, hrest⟩
  · exact (if e.pageflip_ret = 0 then (wait_for_flip true e.wait).2 else [])
  · by_cases hflip : e.pageflip_ret = 0
    · by_cases hw : (wait_for_flip true e.wait).1 = .flipped
      · rw [swap_flipped _ e _ hsome hflip hw]
        simp [hreq, hafter, hflip]
      · by_cases hb : (wait_for_flip true e.wait).1 = .blocked
        · rw [swap_blocked _ e _ hsome hflip hb]
          simp [hreq, hflip]
        · rw [swap_abandoned _ e _ hsome hflip hw hb]
          simp [hreq, hflip]
    · rw [swap_rejected _ e _ hsome hflip]
      simp [hreq, hflip]
  · split_ifs
    · exact wait_setcrtc_count _ _
    · rfl
  · split_ifs
    · exact wait_pageflip_count _ _
    · rfl

/-- Instance of `C6_one_mode_set_in_first_call` on a concrete input. -/
theorem C6_one_mode_set_in_first_call_witness :
    ∃ (r : SwapResult) (rs : List SwapResult) (t : List Event),
      present_calls (startup SDL_calloc_DisplayData) (frame_rejected 1 :: [frame_ok 2]) =
        r :: rs ∧
      r.trace =
        [Event.SDL_EGL_SwapBuffers,
          Event.gbm_surface_lock_front_buffer (frame_rejected 1).front,
          Event.drmModeAddFB (frame_rejected 1).front 0 (frame_rejected 1).addfb_id,
          Event.drmModeSetCrtc (frame_rejected 1).addfb_id (frame_rejected 1).setcrtc_ret,
          Event.drmModePageFlip (frame_rejected 1).addfb_id (frame_rejected 1).pageflip_ret]
          ++ t ∧
      setcrtc_count t = 0 ∧ pageflip_count t = 0 ∧
      setcrtc_count r.trace = 1 ∧
      ∀ r1 ∈ rs, setcrtc_count r1.trace = 0 :=
  C6_one_mode_set_in_first_call SDL_calloc_DisplayData (frame_rejected 1) [frame_ok 2]
    (by decide)

/-- C7. On a connector that offers 800x600 and then 65535x65535, discovery
returns 0 and records 800x600, although the other mode has the larger area:
the `int` product 65535 * 65535 wraps to -131071, which does not beat the area
so far, so the mode of largest area is skipped. -/
theorem C7_overflowing_mode_skipped :
    init_drm scenario_overflow SDL_calloc_DisplayData =
        .ok (0, { SDL_calloc_DisplayData with
                  fd := 3, mode := some { hdisplay := 800, vdisplay := 600 },
                  crtc_id := 61, connector_id := 8 }) ∧
      scenario_overflow.drmModeGetConnector 8 =
        some { connector_id := 8, encoder_id := 21, connection := .DRM_MODE_CONNECTED,
               modes := [{ hdisplay := 800, vdisplay := 600 },
                         { hdisplay := 65535, vdisplay := 65535 }] } ∧
      current_area { hdisplay := 65535, vdisplay := 65535 } = -131071 ∧
      mode_area { hdisplay := 800, vdisplay := 600 } <
        mode_area { hdisplay := 65535, vdisplay := 65535 } := by
  refine ⟨rfl, rfl, ?_, ?_⟩
  · decide
  · decide

/-- C8 (as stated, refuted). After the first two successful calls since
start-up exactly one buffer has been released, buffer 1, but no buffer was
displayed before call 1: buffer 1 is the one call 1 itself acquired and put on
screen.  And once a buffer is recorded as displayed (here after one call), two
successful calls release two buffers. -/
theorem C8_counterexample :
    released (run_trace (startup SDL_calloc_DisplayData) [frame_ok 1, frame_ok 2]) = [1] ∧
      (startup SDL_calloc_DisplayData).displaydata.bo = none ∧
      (frame_ok 1).front = 1 ∧
      released (run_trace state_after_frame_1 [frame_ok 2, frame_ok 1]) = [1, 2] := by
  decide

/-- C8 (amended). After two sequential successful present calls from
start-up, exactly one buffer has been released: call 1 releases none, call 2
releases one, and it is the buffer that call 1 acquired and displayed, the one
recorded as displayed before call 2. -/
theorem C8_two_calls_release_first_buffer (d : SDL_DisplayData) (e1 e2 : SwapEnv)
    (r1 r2 : SwapResult)
    (hrun : present_calls (startup d) [e1, e2] = [r1, r2])
    (h1 : presented r1) (h2 : presented r2) :
    released (run_trace (startup d) [e1, e2]) = [e1.front] ∧
      released r1.trace = [] ∧
      released r2.trace = [e1.front] ∧
      r1.state.displaydata.bo = some e1.front := by
  simp only [present_calls] at hrun
  have hr1 : GBM_GLES_SwapWindow (startup d) e1 = r1 := (List.cons.inj hrun).1
  have hst : (GBM_GLES_SwapWindow (startup d) e1).status = .returned := by rw [hr1]; exact h1.1
  simp only [hst, List.cons.injEq] at hrun
  have hr2 : GBM_GLES_SwapWindow r1.state e2 = r2 := by
    rw [← hr1]; exact hrun.2.1
  have he1 := presented_effect (startup d) e1 (hr1 ▸ h1)
  have he2 := presented_effect r1.state e2 (hr2 ▸ h2)
  rw [hr1] at he1
  rw [hr2] at he2
  have ha1 : (after_first_flip (startup d)).bo = none := by simp [after_first_flip, startup]
  have ha2 : (after_first_flip r1.state).bo = some e1.front := by
    simp [after_first_flip, he1.2.2, he1.2.1]
  rw [ha1] at he1
  rw [ha2] at he2
  have htrace : run_trace (startup d) [e1, e2] = r1.trace ++ r2.trace := by
    simp only [run_trace, hst]
    rw [hr1, hr2]
    cases r2.status <;> simp
  refine ⟨?_, by simpa using he1.1, by simpa using he2.1, he1.2.1⟩
  rw [htrace, released_append, he1.1, he2.1]
  simp

/-- Instance of `C8_two_calls_release_first_buffer` on a concrete input. -/
theorem C8_two_calls_release_first_buffer_witness :
    released (run_trace (startup SDL_calloc_DisplayData) [frame_ok 1, frame_ok 2]) =
        [(frame_ok 1).front] ∧
      released (GBM_GLES_SwapWindow (startup SDL_calloc_DisplayData) (frame_ok 1)).trace = [] ∧
      released (GBM_GLES_SwapWindow state_after_frame_1 (frame_ok 2)).trace =
        [(frame_ok 1).front] ∧
      (GBM_GLES_SwapWindow (startup SDL_calloc_DisplayData)
        (frame_ok 1)).state.displaydata.bo = some (frame_ok 1).front :=
  C8_two_calls_release_first_buffer SDL_calloc_DisplayData (frame_ok 1) (frame_ok 2)
    (GBM_GLES_SwapWindow (startup SDL_calloc_DisplayData) (frame_ok 1))
    (GBM_GLES_SwapWindow state_after_frame_1 (frame_ok 2))
    (by decide) ⟨by decide, by decide⟩ ⟨by decide, by decide⟩

/-- C9. The connector loop selects exactly the first connector in enumeration
order that reports the connected state: if it selects one, that one is it, and
if a connected connector is enumerated after connectors that all report
another state, the loop selects it.  Accordingly, whenever discovery returns 0
the recorded connector id is the id of the first connected connector, and
whenever the device opens, its resources are read, a first connected connector
exists and the mode and encoder stages succeed for it, discovery returns 0
with that connector's id recorded.  When every enumerated connector reports a
state other than connected, discovery returns -1 and records nothing but the
descriptor. -/
theorem C9_first_connected_connector :
    (∀ (getConnector : Nat → Option drmModeConnector) (ids : List Nat)
      (connector : drmModeConnector),
      find_connector getConnector ids = .ok (some connector) →
      ∃ pre id post, ids = pre ++ id :: post ∧ getConnector id = some connector ∧
        connector.connection = .DRM_MODE_CONNECTED ∧
        ∀ j ∈ pre, ∃ c, getConnector j = some c ∧ c.connection ≠ .DRM_MODE_CONNECTED) ∧
    (∀ (getConnector : Nat → Option drmModeConnector) (pre : List Nat) (id : Nat)
      (post : List Nat) (connector : drmModeConnector),
      getConnector id = some connector →
      connector.connection = .DRM_MODE_CONNECTED →
      (∀ j ∈ pre, ∃ c, getConnector j = some c ∧ c.connection ≠ .DRM_MODE_CONNECTED) →
      find_connector getConnector (pre ++ id :: post) = .ok (some connector)) ∧
    (∀ (env : DrmEnv) (data : SDL_DisplayData),
      init_drm env SDL_calloc_DisplayData = .ok (0, data) →
      ∃ resources pre id post connector,
        env.drmModeGetResources = some resources ∧
        resources.connectors = pre ++ id :: post ∧
        env.drmModeGetConnector id = some connector ∧
        connector.connection = .DRM_MODE_CONNECTED ∧
        (∀ j ∈ pre, ∃ c, env.drmModeGetConnector j = some c ∧
          c.connection ≠ .DRM_MODE_CONNECTED) ∧
        data.connector_id = connector.connector_id) ∧
    (∀ (env : DrmEnv) (resources : drmModeRes) (pre : List Nat) (id : Nat) (post : List Nat)
      (connector : drmModeConnector) (mode : drmModeModeInfo) (encoder : drmModeEncoder),
      0 ≤ open_modules env.drmOpen 0 modules →
      env.drmModeGetResources = some resources →
      resources.connectors = pre ++ id :: post →
      env.drmModeGetConnector id = some connector →
      connector.connection = .DRM_MODE_CONNECTED →
      (∀ j ∈ pre, ∃ c, env.drmModeGetConnector j = some c ∧
        c.connection ≠ .DRM_MODE_CONNECTED) →
      find_mode connector.modes 0 none = some mode →
      find_encoder env.drmModeGetEncoder connector.encoder_id resources.encoders =
        .ok (some encoder) →
      init_drm env SDL_calloc_DisplayData =
        .ok (0, { SDL_calloc_DisplayData with
                  fd := open_modules env.drmOpen 0 modules, mode := some mode,
                  crtc_id := encoder.crtc_id, connector_id := connector.connector_id })) ∧
    (∀ (env : DrmEnv) (resources : drmModeRes),
      0 ≤ open_modules env.drmOpen 0 modules →
      env.drmModeGetResources = some resources →
      (∀ id ∈ resources.connectors, ∃ c, env.drmModeGetConnector id = some c ∧
        c.connection ≠ .DRM_MODE_CONNECTED) →
      init_drm env SDL_calloc_DisplayData =
        .ok (-1, { SDL_calloc_DisplayData with fd := open_modules env.drmOpen 0 modules })) := by
  refine ⟨find_connector_some, ?_, ?_, ?_, ?_⟩
  · intro getConnector pre id post connector hget hconn hpre
    exact find_connector_finds getConnector pre id post connector hget hconn hpre
  · intro env data h
    obtain ⟨resources, connector, mode, encoder, hres, hconn, -, -, hdata⟩ :=
      init_drm_ok env _ data h
    obtain ⟨pre, id, post, hids, hget, hc, hpre⟩ := find_connector_some _ _ _ hconn
    exact ⟨resources, pre, id, post, connector, hres, hids, hget, hc, hpre, by rw [hdata]⟩
  · intro env resources pre id post connector mode encoder hfd hres hids hget hconn hpre
      hmode henc
    have hfind : find_connector env.drmModeGetConnector resources.connectors =
        .ok (some connector) := by
      rw [hids]
      exact find_connector_finds _ pre id post connector hget hconn hpre
    exact init_drm_success env resources connector mode encoder hfd hres hfind hmode henc
  · intro env resources hfd hres hnone
    have hfd1 : ¬ open_modules env.drmOpen 0 modules < 0 := not_lt.2 hfd
    simp [init_drm, SDL_calloc_DisplayData, hfd1, hres, find_connector_none _ _ hnone]

/-- Instance of `C9_first_connected_connector` on a concrete input: on
`scenario_env` the loop passes connector 7 and selects connector 8, discovery
returns 0 with connector id 8, and on `scenario_unplugged` it returns -1. -/
theorem C9_first_connected_connector_witness :
    find_connector scenario_env.drmModeGetConnector ([7] ++ 8 :: []) =
        .ok (some scenario_connector) ∧
      init_drm scenario_env SDL_calloc_DisplayData =
        .ok (0, { SDL_calloc_DisplayData with
                  fd := open_modules scenario_env.drmOpen 0 modules,
                  mode := some { hdisplay := 1920, vdisplay := 1080 },
                  crtc_id := (drmModeEncoder.mk 21 61).crtc_id,
                  connector_id := scenario_connector.connector_id }) ∧
      init_drm scenario_unplugged SDL_calloc_DisplayData =
        .ok (-1, { SDL_calloc_DisplayData with
                   fd := open_modules scenario_unplugged.drmOpen 0 modules }) :=
  ⟨C9_first_connected_connector.2.1 scenario_env.drmModeGetConnector [7] 8 []
      scenario_connector rfl rfl
      (fun j hj => by
        rw [List.mem_singleton.1 hj]
        exact ⟨_, rfl, by decide⟩),
    C9_first_connected_connector.2.2.2.1 scenario_env
      { connectors := [7, 8], encoders := [20, 21] } [7] 8 [] scenario_connector
      { hdisplay := 1920, vdisplay := 1080 } { encoder_id := 21, crtc_id := 61 }
      (by decide) rfl rfl rfl rfl
      (fun j hj => by
        rw [List.mem_singleton.1 hj]
        exact ⟨_, rfl, by decide⟩)
      (by decide) rfl,
    C9_first_connected_connector.2.2.2.2 scenario_unplugged
      { connectors := [7, 8], encoders := [20, 21] }
      (by decide) rfl
      (fun id _ => ⟨_, rfl, fun hc => by cases hc⟩)⟩

/-- C10. The encoder loop selects exactly the first encoder in enumeration
order whose identifier is the wanted one: if it selects one, that one is it,
and if an encoder with the wanted identifier is enumerated after encoders that
all have another identifier, the loop selects it.  Accordingly, whenever
discovery returns 0 the selected encoder's identifier equals the selected
connector's `encoder_id` and the recorded controller id is that encoder's
`crtc_id`, and whenever a connector and a mode were chosen and such an encoder
is enumerated, discovery returns 0 with that encoder's `crtc_id` recorded.
When a connector and a mode were chosen and every enumerated encoder has
another identifier, discovery returns -1 and records no controller id and no
connector id. -/
theorem C10_encoder_of_connector :
    (∀ (getEncoder : Nat → Option drmModeEncoder) (want : Nat) (ids : List Nat)
      (encoder : drmModeEncoder),
      find_encoder getEncoder want ids = .ok (some encoder) →
      ∃ pre id post, ids = pre ++ id :: post ∧ getEncoder id = some encoder ∧
        encoder.encoder_id = want ∧
        ∀ j ∈ pre, ∃ c, getEncoder j = some c ∧ c.encoder_id ≠ want) ∧
    (∀ (getEncoder : Nat → Option drmModeEncoder) (want : Nat) (pre : List Nat) (id : Nat)
      (post : List Nat) (encoder : drmModeEncoder),
      getEncoder id = some encoder →
      encoder.encoder_id = want →
      (∀ j ∈ pre, ∃ c, getEncoder j = some c ∧ c.encoder_id ≠ want) →
      find_encoder getEncoder want (pre ++ id :: post) = .ok (some encoder)) ∧
    (∀ (env : DrmEnv) (data : SDL_DisplayData),
      init_drm env SDL_calloc_DisplayData = .ok (0, data) →
      ∃ resources connector pre id post encoder,
        env.drmModeGetResources = some resources ∧
        find_connector env.drmModeGetConnector resources.connectors = .ok (some connector) ∧
        resources.encoders = pre ++ id :: post ∧
        env.drmModeGetEncoder id = some encoder ∧
        encoder.encoder_id = connector.encoder_id ∧
        (∀ j ∈ pre, ∃ c, env.drmModeGetEncoder j = some c ∧
          c.encoder_id ≠ connector.encoder_id) ∧
        data.crtc_id = encoder.crtc_id ∧
        data.connector_id = connector.connector_id) ∧
    (∀ (env : DrmEnv) (resources : drmModeRes) (connector : drmModeConnector)
      (mode : drmModeModeInfo) (pre : List Nat) (id : Nat) (post : List Nat)
      (encoder : drmModeEncoder),
      0 ≤ open_modules env.drmOpen 0 modules →
      env.drmModeGetResources = some resources →
      find_connector env.drmModeGetConnector resources.connectors = .ok (some connector) →
      find_mode connector.modes 0 none = some mode →
      resources.encoders = pre ++ id :: post →
      env.drmModeGetEncoder id = some encoder →
      encoder.encoder_id = connector.encoder_id →
      (∀ j ∈ pre, ∃ c, env.drmModeGetEncoder j = some c ∧
        c.encoder_id ≠ connector.encoder_id) →
      init_drm env SDL_calloc_DisplayData =
        .ok (0, { SDL_calloc_DisplayData with
                  fd := open_modules env.drmOpen 0 modules, mode := some mode,
                  crtc_id := encoder.crtc_id, connector_id := connector.connector_id })) ∧
    (∀ (env : DrmEnv) (resources : drmModeRes) (connector : drmModeConnector)
      (mode : drmModeModeInfo),
      0 ≤ open_modules env.drmOpen 0 modules →
      env.drmModeGetResources = some resources →
      find_connector env.drmModeGetConnector resources.connectors = .ok (some connector) →
      find_mode connector.modes 0 none = some mode →
      (∀ id ∈ resources.encoders, ∃ c, env.drmModeGetEncoder id = some c ∧
        c.encoder_id ≠ connector.encoder_id) →
      init_drm env SDL_calloc_DisplayData =
        .ok (-1, { SDL_calloc_DisplayData with
                   fd := open_modules env.drmOpen 0 modules, mode := some mode })) := by
  refine ⟨find_encoder_some, ?_, ?_, ?_, ?_⟩
  · intro getEncoder want pre id post encoder hget hid hpre
    exact find_encoder_finds getEncoder want pre id post encoder hget hid hpre
  · intro env data h
    obtain ⟨resources, connector, mode, encoder, hres, hconn, -, henc, hdata⟩ :=
      init_drm_ok env _ data h
    obtain ⟨pre, id, post, hids, hget, hc, hpre⟩ := find_encoder_some _ _ _ _ henc
    exact ⟨resources, connector, pre, id, post, encoder, hres, hconn, hids, hget, hc, hpre,
      by rw [hdata], by rw [hdata]⟩
  · intro env resources connector mode pre id post encoder hfd hres hconn hmode hids hget
      hid hpre
    have hfind : find_encoder env.drmModeGetEncoder connector.encoder_id resources.encoders =
        .ok (some encoder) := by
      rw [hids]
      exact find_encoder_finds _ _ pre id post encoder hget hid hpre
    exact init_drm_success env resources connector mode encoder hfd hres hconn hmode hfind
  · intro env resources connector mode hfd hres hconn hmode hnone
    have hfd1 : ¬ open_modules env.drmOpen 0 modules < 0 := not_lt.2 hfd
    simp [init_drm, SDL_calloc_DisplayData, hfd1, hres, hconn, hmode,
      find_encoder_none _ _ _ hnone]

/-- Instance of `C10_encoder_of_connector` on a concrete input: on
`scenario_env` the loop passes encoder 20 and selects encoder 21, the one
connector 8 is bound to, discovery returns 0 with controller id 61, and on
`scenario_no_encoder` it returns -1. -/
theorem C10_encoder_of_connector_witness :
    find_encoder scenario_env.drmModeGetEncoder 21 ([20] ++ 21 :: []) =
        .ok (some { encoder_id := 21, crtc_id := 61 }) ∧
      init_drm scenario_env SDL_calloc_DisplayData =
        .ok (0, { SDL_calloc_DisplayData with
                  fd := open_modules scenario_env.drmOpen 0 modules,
                  mode := some { hdisplay := 1920, vdisplay := 1080 },
                  crtc_id := (drmModeEncoder.mk 21 61).crtc_id,
                  connector_id := scenario_connector.connector_id }) ∧
      init_drm scenario_no_encoder SDL_calloc_DisplayData =
        .ok (-1, { SDL_calloc_DisplayData with
                   fd := open_modules scenario_no_encoder.drmOpen 0 modules,
                   mode := some { hdisplay := 1920, vdisplay := 1080 } }) :=
  ⟨C10_encoder_of_connector.2.1 scenario_env.drmModeGetEncoder 21 [20] 21 []
      { encoder_id := 21, crtc_id := 61 } rfl rfl
      (fun j hj => by
        rw [List.mem_singleton.1 hj]
        exact ⟨_, rfl, by decide⟩),
    C10_encoder_of_connector.2.2.2.1 scenario_env
      { connectors := [7, 8], encoders := [20, 21] } scenario_connector
      { hdisplay := 1920, vdisplay := 1080 } [20] 21 [] { encoder_id := 21, crtc_id := 61 }
      (by decide) rfl rfl (by decide) rfl rfl rfl
      (fun j hj => by
        rw [List.mem_singleton.1 hj]
        exact ⟨_, rfl, by decide⟩),
    C10_encoder_of_connector.2.2.2.2 scenario_no_encoder
      { connectors := [7, 8], encoders := [20, 21] }
      scenario_connector { hdisplay := 1920, vdisplay := 1080 }
      (by decide) rfl rfl (by decide)
      (fun id _ => ⟨_, rfl, by
        show id + 100 ≠ 21
        omega⟩)⟩

/-- C11. When the device opens, its resources are read, a connector is
selected and that connector's mode list is empty, `init_drm` on the zeroed
display record returns -1 and leaves the record with only the descriptor
written: no mode, no controller id, no connector id.  `GBM_VideoInit` then
returns -1 as well, whatever the allocator would answer, and its record has
neither an allocation context nor a surface: `init_gbm` is not reached. -/
theorem C11_empty_mode_list_fails (env : DrmEnv) (gbm : GbmEnv) (resources : drmModeRes)
    (connector : drmModeConnector)
    (hfd : 0 ≤ open_modules env.drmOpen 0 modules)
    (hres : env.drmModeGetResources = some resources)
    (hconn : find_connector env.drmModeGetConnector resources.connectors =
      .ok (some connector))
    (hmodes : connector.modes = []) :
    init_drm env SDL_calloc_DisplayData =
        .ok (-1, { SDL_calloc_DisplayData with fd := open_modules env.drmOpen 0 modules }) ∧
      GBM_VideoInit env gbm =
        .ok (-1, { SDL_calloc_DisplayData with fd := open_modules env.drmOpen 0 modules }) ∧
      ∀ data, GBM_VideoInit env gbm = .ok (-1, data) →
        data.mode = none ∧ data.crtc_id = 0 ∧ data.connector_id = 0 ∧
          data.gbm = none ∧ data.surface = none := by
  have hfd1 : ¬ open_modules env.drmOpen 0 modules < 0 := not_lt.2 hfd
  have hdrm : init_drm env SDL_calloc_DisplayData =
      .ok (-1, { SDL_calloc_DisplayData with fd := open_modules env.drmOpen 0 modules }) := by
    simp [init_drm, SDL_calloc_DisplayData, hfd1, hres, hconn, hmodes, find_mode]
  have hinit : GBM_VideoInit env gbm =
      .ok (-1, { SDL_calloc_DisplayData with fd := open_modules env.drmOpen 0 modules }) := by
    simp [GBM_VideoInit, hdrm]
  refine ⟨hdrm, hinit, ?_⟩
  intro data hdata
  rw [hinit] at hdata
  simp only [Except.ok.injEq, Prod.mk.injEq, true_and] at hdata
  rw [← hdata]
  simp [SDL_calloc_DisplayData]

/-- Instance of `C11_empty_mode_list_fails` on a concrete input. -/
theorem C11_empty_mode_list_fails_witness :
    init_drm scenario_no_modes SDL_calloc_DisplayData =
        .ok (-1, { SDL_calloc_DisplayData with
                   fd := open_modules scenario_no_modes.drmOpen 0 modules }) ∧
      GBM_VideoInit scenario_no_modes scenario_gbm =
        .ok (-1, { SDL_calloc_DisplayData with
                   fd := open_modules scenario_no_modes.drmOpen 0 modules }) ∧
      ∀ data, GBM_VideoInit scenario_no_modes scenario_gbm = .ok (-1, data) →
        data.mode = none ∧ data.crtc_id = 0 ∧ data.connector_id = 0 ∧
          data.gbm = none ∧ data.surface = none :=
  C11_empty_mode_list_fails scenario_no_modes scenario_gbm
    { connectors := [7, 8], encoders := [20, 21] }
    { connector_id := 8, encoder_id := 21, connection := .DRM_MODE_CONNECTED, modes := [] }
    (by decide) rfl rfl rfl

end GBM
